import Mathlib

/-!
# Force field recovery behaviour

A shallow embedding of `force_field_recovery.cpp` (package `mcr_recovery_behaviors`).

Numbers: the C++ `double` and `float` values are modelled as elements of a linearly
ordered field `α` (instantiated with `ℚ` or `ℝ`); rounding, infinities and NaN are not
modelled.  The C library functions `sqrt`, `atan2`, `sin`, `cos` are parameters of the
embedding (`CMath`).  The `int` counters are modelled as unbounded integers; inside one
invocation `number_of_oscillations` never exceeds 1, so no wrap-around is reachable.

The object state is passed explicitly: every member function takes the object `self`
and returns the updated object together with what it published.

Eigen is a library outside the package: `normalize()` is modelled as Eigen documents it,
a vector of zero norm being left unchanged.

The collaborators of a pass of the loop are inputs: a `Snapshot` holds the costmap, the
answers of the transform listener and the clock; `Snapshot.toTick` runs the steps 1 to 5
of the loop body on it and gives the `Tick` the rest of the pass works on.  The sizes of
a costmap are the values the source holds in `int` variables.  A point of a cloud keeps
the coordinates it is built from; the conversion to `float` is not modelled.

Theorems that need the values of the C functions are stated over `ℝ` with the real
square root, sine and cosine and with `atan2 y x` the argument of the complex number
`x + y i`.
-/

namespace ForceField

/-- The functions of the C math library that the source calls. -/
structure CMath (α : Type) where
  sqrt : α → α
  atan2 : α → α → α
  sin : α → α
  cos : α → α

/-- Three-component vector: `Eigen::Vector3f` and `geometry_msgs::Vector3`. -/
structure Vector3 (α : Type) where
  x : α
  y : α
  z : α
deriving DecidableEq

/-- Point of a `pcl::PointCloud<pcl::PointXYZ>`. -/
structure PointXYZ (α : Type) where
  x : α
  y : α
  z : α
deriving DecidableEq

/-- Message `geometry_msgs::Twist`. -/
structure Twist (α : Type) where
  linear : Vector3 α
  angular : Vector3 α
deriving DecidableEq

/-- Members of the class `ForceFieldRecovery` that the source reads or writes.
Pointers are modelled as optional handles, `none` being `NULL`. -/
structure ForceFieldRecovery (α : Type) where
  global_costmap_ : Option Nat
  local_costmap_ : Option Nat
  tf_ : Option Nat
  initialized_ : Bool
  detect_oscillation_is_enabled_ : Bool
  previous_angle_ : α
  allowed_oscillations_ : Int
  velocity_scale_ : α
  obstacle_neighborhood_ : α
  max_velocity_ : α
  timeout_ : α
  recovery_behavior_update_frequency_ : α
  oscillation_angular_tolerance_ : α

/-- Values found on the parameter server under the private namespace of the plugin;
`none` when a key is not set. -/
structure ParamServer (α : Type) where
  velocity_scale_factor : Option α
  obstacle_neighborhood : Option α
  max_velocity : Option α
  timeout : Option α
  update_frequency : Option α
  oscillation_angular_tolerance : Option α
  allowed_oscillations : Option Int

/-- What one pass of the loop body of `move_base_away` reads from its collaborators:
the obstacle cloud in the frame of the robot (steps 1 to 5 of the loop body) and the
value that `ros::Time::now()` returns in the timeout test of that pass. -/
structure Tick (α : Type) where
  obstacle_cloud_bf : List (PointXYZ α)
  now : α

/-- Result of `detect_oscillations`: the returned flag, the object afterwards and the
counter passed by reference. -/
structure DetectResult (α : Type) where
  result : Bool
  self : ForceFieldRecovery α
  number_of_oscillations : Int

/-- Everything observable when `move_base_away` returns: the object, the messages sent
on `twist_pub_` in order, and the final values of the three local variables. -/
structure RunResult (α : Type) where
  self : ForceFieldRecovery α
  published : List (Twist α)
  no_obstacles_in_radius : Bool
  timeout : Bool
  number_of_oscillations : Int

/-- The three ways the loop of `move_base_away` is left. -/
inductive Outcome where
  | SUCCEEDED
  | OSCILLATING
  | TIMED_OUT
deriving DecidableEq, Repr

/-- The part of a `costmap_2d::Costmap2D` snapshot that the source reads.  The sizes are
the values the source holds in its `int` variables `x_size_` and `y_size_`. -/
structure Costmap2D (α : Type) where
  getSizeInCellsX : Int
  getSizeInCellsY : Int
  getCost : Nat → Nat → Int
  mapToWorld : Nat → Nat → α × α

/-- A `tf::StampedTransform`: the rows of the rotation matrix and the translation. -/
structure StampedTransform (α : Type) where
  row_x : Vector3 α
  row_y : Vector3 α
  row_z : Vector3 α
  origin : Vector3 α

/-- A `sensor_msgs::PointCloud2` as far as the source uses it: the frame of its header
and its points. -/
structure PointCloud2 (α : Type) where
  frame_id : String
  points : List (PointXYZ α)

/-- The transform listener `tf_`: what `lookupTransform(target, source, ...)` answers,
`none` when it throws a `tf::TransformException`. -/
structure TransformListener (α : Type) where
  lookupTransform : String → String → Option (StampedTransform α)

/-- What `change_cloud_reference_frame` produces: the cloud it returns and whether it
reported an error with `ROS_ERROR`. -/
structure FrameChange (α : Type) where
  cloud_trans : List (PointXYZ α)
  error_reported : Bool

/-- What the steps 1 to 5 of one pass of the loop of `move_base_away` read from the
collaborators: the costmap snapshot, the state of the transform listener, the content of
the local `transform` as its declaration leaves it, and the clock. -/
structure Snapshot (α : Type) where
  costmap : Costmap2D α
  tf : TransformListener α
  transform : StampedTransform α
  now : α

section Defs

variable {α : Type} [LinearOrderedField α]

/-- Eigen `operator-=` on vectors. -/
def Vector3.sub (a b : Vector3 α) : Vector3 α :=
  ⟨a.x - b.x, a.y - b.y, a.z - b.z⟩

/-- Eigen multiplication of a vector by a scalar. -/
def Vector3.scale (a : Vector3 α) (k : α) : Vector3 α :=
  ⟨a.x * k, a.y * k, a.z * k⟩

/-- Eigen `squaredNorm()`. -/
def Vector3.squaredNorm (a : Vector3 α) : α :=
  a.x * a.x + a.y * a.y + a.z * a.z

/-- Eigen `norm()`: the square root of the squared norm. -/
def Vector3.norm (m : CMath α) (a : Vector3 α) : α :=
  m.sqrt a.squaredNorm

/-- Eigen `normalize()`: divides the vector by its norm; a vector whose squared norm is
not positive is left as it is (the behaviour Eigen documents for a zero vector). -/
def Vector3.normalize (m : CMath α) (a : Vector3 α) : Vector3 α :=
  if a.squaredNorm > 0 then
    ⟨a.x / m.sqrt a.squaredNorm, a.y / m.sqrt a.squaredNorm, a.z / m.sqrt a.squaredNorm⟩
  else a

/-- The call `NodeHandle::param(key, variable, default)`. -/
def param {β : Type} (value : Option β) (default : β) : β :=
  value.getD default

/-- The member function `ForceFieldRecovery::initialize` (the name is a reserved word
of Lean, hence the spelling). -/
def initialise (self : ForceFieldRecovery α) (tf global_costmap local_costmap : Option Nat)
    (private_nh : ParamServer α) : ForceFieldRecovery α :=
  if !self.initialized_ then
    { global_costmap_ := global_costmap
      local_costmap_ := local_costmap
      tf_ := tf
      initialized_ := true
      detect_oscillation_is_enabled_ := false
      previous_angle_ := 0
      allowed_oscillations_ := param private_nh.allowed_oscillations 0
      velocity_scale_ := param private_nh.velocity_scale_factor 0.6
      obstacle_neighborhood_ := param private_nh.obstacle_neighborhood 0.6
      max_velocity_ := param private_nh.max_velocity 0.3
      timeout_ := param private_nh.timeout 3.0
      recovery_behavior_update_frequency_ := param private_nh.update_frequency 5.0
      oscillation_angular_tolerance_ := param private_nh.oscillation_angular_tolerance 2.8 }
  else self

/-- The member function `ForceFieldRecovery::move_base`: the message it publishes. -/
def move_base (self : ForceFieldRecovery α) (x y : α) : Twist α :=
  let x := if x > self.max_velocity_ then self.max_velocity_
    else if x < -self.max_velocity_ then -self.max_velocity_ else x
  let y := if y > self.max_velocity_ then self.max_velocity_
    else if y < -self.max_velocity_ then -self.max_velocity_ else y
  { linear := ⟨x, y, 0⟩, angular := ⟨0, 0, 0⟩ }

/-- One pass of the `while` loop of `compute_force_field` over the cloud: the pair
`(force_vector, numPoints)` after the point `p`. -/
def compute_force_field_step (m : CMath α) (self : ForceFieldRecovery α)
    (acc : Vector3 α × Int) (p : PointXYZ α) : Vector3 α × Int :=
  let each_point : Vector3 α := ⟨p.x, p.y, 0⟩
  if each_point.norm m < self.obstacle_neighborhood_ then
    (acc.1.sub each_point, acc.2 + 1)
  else acc

/-- The member function `ForceFieldRecovery::compute_force_field`. -/
def compute_force_field (m : CMath α) (self : ForceFieldRecovery α)
    (cloud : List (PointXYZ α)) : Vector3 α :=
  let acc := cloud.foldl (compute_force_field_step m self) (⟨0, 0, 0⟩, 0)
  if acc.2 = 0 then ⟨0, 0, 0⟩
  else (acc.1.normalize m).scale 1.0

/-- The member function `ForceFieldRecovery::detect_oscillations`. -/
def detect_oscillations (m : CMath α) (self : ForceFieldRecovery α)
    (force_field : Vector3 α) (number_of_oscillations : Int) : DetectResult α :=
  if self.detect_oscillation_is_enabled_ then
    let current_angle := m.atan2 force_field.y force_field.x
    let angle_difference := m.atan2 (m.sin (current_angle - self.previous_angle_))
      (m.cos (current_angle - self.previous_angle_))
    let number_of_oscillations :=
      if |angle_difference| > self.oscillation_angular_tolerance_ then
        number_of_oscillations + 1
      else number_of_oscillations
    let self := { self with previous_angle_ := current_angle }
    ⟨decide (number_of_oscillations > self.allowed_oscillations_), self,
      number_of_oscillations⟩
  else
    let self := { self with
      previous_angle_ := m.atan2 force_field.y force_field.x
      detect_oscillation_is_enabled_ := true }
    ⟨decide (number_of_oscillations > self.allowed_oscillations_), self,
      number_of_oscillations⟩

/-- The `while` loop of `move_base_away`, one list element per pass.  The arguments are
the object, the local `number_of_oscillations` and the messages published so far.  The
result is `none` when the list ends before the loop is left.  The marker published by
`publish_obstacle_neighborhood` and the sleep that end a pass touch neither the members
nor `twist_pub_` and are left out. -/
def move_base_away_loop (m : CMath α) (start_time : α) :
    ForceFieldRecovery α → Int → List (Twist α) → List (Tick α) → Option (RunResult α)
  | _, _, _, [] => none
  | self, number_of_oscillations, published, t :: ts =>
    let force_field := compute_force_field m self t.obstacle_cloud_bf
    let cmd_vel_x := force_field.x * self.velocity_scale_
    let cmd_vel_y := force_field.y * self.velocity_scale_
    let published := published ++ [move_base self cmd_vel_x cmd_vel_y]
    if force_field.x = 0 ∧ force_field.y = 0 then
      some ⟨self, published, true, false, number_of_oscillations⟩
    else
      let d := detect_oscillations m self force_field number_of_oscillations
      if d.result then
        some ⟨d.self, published, false, false, d.number_of_oscillations⟩
      else if t.now - start_time > d.self.timeout_ then
        some ⟨d.self, published, false, true, d.number_of_oscillations⟩
      else
        move_base_away_loop m start_time d.self d.number_of_oscillations published ts

/-- The member function `ForceFieldRecovery::move_base_away`: `start_time` is the value
of `ros::Time::now()` on entry and `ticks` what the successive passes of the loop read. -/
def move_base_away (m : CMath α) (self : ForceFieldRecovery α) (start_time : α)
    (ticks : List (Tick α)) : Option (RunResult α) :=
  let self := { self with allowed_oscillations_ := 0 }
  match move_base_away_loop m start_time self 0 [] ticks with
  | none => none
  | some r => some { r with published := r.published ++ [move_base r.self 0.0 0.0] }

/-- The member function `ForceFieldRecovery::runBehavior`: the object afterwards and the
messages published on `twist_pub_`. -/
def runBehavior (m : CMath α) (self : ForceFieldRecovery α) (start_time : α)
    (ticks : List (Tick α)) : Option (ForceFieldRecovery α × List (Twist α)) :=
  if !self.initialized_ then some (self, [])
  else if self.global_costmap_ = none ∨ self.local_costmap_ = none then some (self, [])
  else (move_base_away m self start_time ticks).map fun r => (r.self, r.published)

/-- The exit taken by the loop, read off the two flags: the first `break` sets
`no_obstacles_in_radius`, the third sets `timeout`, the second sets neither. -/
def RunResult.outcome (r : RunResult α) : Outcome :=
  if r.no_obstacles_in_radius then Outcome.SUCCEEDED
  else if r.timeout then Outcome.TIMED_OUT
  else Outcome.OSCILLATING

/-- An object as the constructor leaves it, the members it does not set being zero. -/
def constructed : ForceFieldRecovery α :=
  { global_costmap_ := none
    local_costmap_ := none
    tf_ := none
    initialized_ := false
    detect_oscillation_is_enabled_ := false
    previous_angle_ := 0
    allowed_oscillations_ := 0
    velocity_scale_ := 0
    obstacle_neighborhood_ := 0
    max_velocity_ := 0
    timeout_ := 0
    recovery_behavior_update_frequency_ := 0
    oscillation_angular_tolerance_ := 0 }

/-- A parameter server on which none of the keys is set. -/
def noParams : ParamServer α :=
  ⟨none, none, none, none, none, none, none⟩

/-- An object initialised with no parameter set, so that every member has its default
value, and with the three collaborator pointers not `NULL`. -/
def defaultObject : ForceFieldRecovery α :=
  initialise constructed (some 1) (some 2) (some 3) noParams

/-- What the embedding assumes of the square root where a theorem needs it: on a
positive argument it returns the positive root.  The real square root satisfies it. -/
def CMath.SqrtSpec (m : CMath α) : Prop :=
  ∀ z : α, 0 < z → 0 < m.sqrt z ∧ m.sqrt z * m.sqrt z = z

/-- A point of the cloud lies strictly within the obstacle neighbourhood: the test of
`compute_force_field` on the point with its `z` dropped. -/
def within_neighborhood (m : CMath α) (self : ForceFieldRecovery α) (p : PointXYZ α) :
    Prop :=
  (⟨p.x, p.y, 0⟩ : Vector3 α).norm m < self.obstacle_neighborhood_

instance (m : CMath α) (self : ForceFieldRecovery α) (p : PointXYZ α) :
    Decidable (within_neighborhood m self p) := by
  unfold within_neighborhood
  infer_instance

/-- The points of the cloud that lie strictly within the obstacle neighbourhood, in
the words of the specification ("every point whose Euclidean distance from the origin
is strictly less than the radius"). -/
def qualifying (m : CMath α) (self : ForceFieldRecovery α) (cloud : List (PointXYZ α)) :
    List (PointXYZ α) :=
  cloud.filter fun p => decide (within_neighborhood m self p)

/-- The negative of the sum of the points of a list, as plane vectors, in the words of
the specification ("accumulate the negative of that point's vector; sum all such
contributions"). -/
def negated_sum (points : List (PointXYZ α)) : Vector3 α :=
  ⟨-(points.map fun p => p.x).sum, -(points.map fun p => p.y).sum, 0⟩

/-- Scenario A and an edge case in one cloud, in the frame of the robot: a point at
distance exactly 0.6 and the point `(1, 1)`. -/
def cloud_outside : List (PointXYZ α) :=
  [⟨0.6, 0, 0⟩, ⟨1, 1, 0⟩]

/-- Scenario B: one obstacle point at `(0.1, 0)` in the frame of the robot. -/
def cloud_scenario_B : List (PointXYZ α) :=
  [⟨0.1, 0, 0⟩]

/-- Two obstacle points on opposite sides of the robot, 0.1 m away each. -/
def cloud_symmetric : List (PointXYZ α) :=
  [⟨0.1, 0, 0⟩, ⟨-0.1, 0, 0⟩]

/-- One obstacle point at `(-0.1, 0)` in the frame of the robot. -/
def cloud_behind : List (PointXYZ α) :=
  [⟨-0.1, 0, 0⟩]

/-- An object initialised with `allowed_oscillations` set to 2 on the parameter server
and every other parameter left to its default. -/
def objectAllowingTwo : ForceFieldRecovery α :=
  initialise constructed (some 1) (some 2) (some 3)
    { (noParams : ParamServer α) with allowed_oscillations := some 2 }

/-- The default object once `detect_oscillations` has recorded the angle `angle`. -/
def defaultObjectAfter (angle : α) : ForceFieldRecovery α :=
  { (defaultObject : ForceFieldRecovery α) with
    detect_oscillation_is_enabled_ := true
    previous_angle_ := angle }

/-- An object initialised with `max_velocity` set to -1 on the parameter server and
every other parameter left to its default. -/
def objectNegativeMax : ForceFieldRecovery α :=
  initialise constructed (some 1) (some 2) (some 3)
    { (noParams : ParamServer α) with max_velocity := some (-1) }

/-- The loop of `move_base_away`, started in the state `(self, number_of_oscillations)`,
goes through every pass of `ticks` without taking the first `break` (the force of the
pass is not zero on both axes) or the second (`detect_oscillations` returns false). -/
def passes_without_zero_or_oscillation (m : CMath α) :
    ForceFieldRecovery α → Int → List (Tick α) → Prop
  | _, _, [] => True
  | self, number_of_oscillations, t :: ts =>
    ¬ ((compute_force_field m self t.obstacle_cloud_bf).x = 0
        ∧ (compute_force_field m self t.obstacle_cloud_bf).y = 0)
    ∧ (detect_oscillations m self (compute_force_field m self t.obstacle_cloud_bf)
        number_of_oscillations).result = false
    ∧ passes_without_zero_or_oscillation m
        (detect_oscillations m self (compute_force_field m self t.obstacle_cloud_bf)
          number_of_oscillations).self
        (detect_oscillations m self (compute_force_field m self t.obstacle_cloud_bf)
          number_of_oscillations).number_of_oscillations ts

/-- Scenario D: the passes number `first`, ..., `first + count - 1` of an invocation
started at time 0 whose passes are 0.2 s apart and all see the cloud of Scenario B. -/
def ticks_scenario_D (first count : Nat) : List (Tick α) :=
  (List.range count).map fun k => ⟨cloud_scenario_B, 0.2 * ((first + k : Nat) : α)⟩

/-- The body of the inner `for` loop of `costmap_to_pointcloud` for the cell `(i, j)`.
`LETHAL_COST` is a constant of a header that is not part of the sources. -/
def costmap_to_pointcloud_cell (LETHAL_COST : Int) (costmap : Costmap2D α) (i : Nat)
    (cloud : List (PointXYZ α)) (j : Nat) : List (PointXYZ α) :=
  let current_cost := costmap.getCost i j
  if current_cost = LETHAL_COST then
    cloud ++ [⟨(costmap.mapToWorld i j).1, (costmap.mapToWorld i j).2, 0⟩]
  else cloud

/-- The member function `ForceFieldRecovery::costmap_to_pointcloud`: the two nested
`for` loops run `i` over `0 .. x_size_ - 1` and `j` over `0 .. y_size_ - 1`, and not at
all when the bound is not positive. -/
def costmap_to_pointcloud (LETHAL_COST : Int) (costmap : Costmap2D α) : List (PointXYZ α) :=
  let x_size_ := costmap.getSizeInCellsX
  let y_size_ := costmap.getSizeInCellsY
  (List.range x_size_.toNat).foldl
    (fun cloud i =>
      (List.range y_size_.toNat).foldl (costmap_to_pointcloud_cell LETHAL_COST costmap i) cloud)
    []

/-- The member function `ForceFieldRecovery::publish_cloud`: the message it returns (and
publishes on a visualisation topic), the points of the cloud under the given frame. -/
def publish_cloud (cloud : List (PointXYZ α)) (frame_id : String) : PointCloud2 α :=
  { frame_id := frame_id, points := cloud }

/-- One point under a transform: rotation, then translation. -/
def StampedTransform.apply (T : StampedTransform α) (p : PointXYZ α) : PointXYZ α :=
  ⟨T.row_x.x * p.x + T.row_x.y * p.y + T.row_x.z * p.z + T.origin.x,
   T.row_y.x * p.x + T.row_y.y * p.y + T.row_y.z * p.z + T.origin.y,
   T.row_z.x * p.x + T.row_z.y * p.y + T.row_z.z * p.z + T.origin.z⟩

/-- The call `pcl_ros::transformPointCloud(cloud_in, cloud_trans, transform)`: every point
of the cloud under the transform. -/
def transformPointCloud (cloud_in : List (PointXYZ α)) (transform : StampedTransform α) :
    List (PointXYZ α) :=
  cloud_in.map transform.apply

/-- The member function `ForceFieldRecovery::change_cloud_reference_frame`.  The argument
`transform` is the content of the local variable of that name before the lookup; the
lookup overwrites it when it succeeds, and when it throws the `catch` block reports the
error and the function goes on with the variable as it was. -/
def change_cloud_reference_frame (tf_ : TransformListener α) (transform : StampedTransform α)
    (ros_cloud : PointCloud2 α) (target_reference_frame : String) : FrameChange α :=
  let cloud_in := ros_cloud.points
  match tf_.lookupTransform target_reference_frame ros_cloud.frame_id with
  | some found => ⟨transformPointCloud cloud_in found, false⟩
  | none => ⟨transformPointCloud cloud_in transform, true⟩

/-- Steps 1 to 5 of the loop body of `move_base_away`: the costmap snapshot is turned into
a cloud, published under `/map`, and changed to the frame `/base_footprint`. -/
def Snapshot.frame_change (LETHAL_COST : Int) (s : Snapshot α) : FrameChange α :=
  let obstacle_cloud := costmap_to_pointcloud LETHAL_COST s.costmap
  let ros_obstacle_cloud := publish_cloud obstacle_cloud "/map"
  change_cloud_reference_frame s.tf s.transform ros_obstacle_cloud "/base_footprint"

/-- What a pass of the loop goes on with after its steps 1 to 5: the cloud in the frame of
the robot and the clock. -/
def Snapshot.toTick (LETHAL_COST : Int) (s : Snapshot α) : Tick α :=
  ⟨(s.frame_change LETHAL_COST).cloud_trans, s.now⟩

/-- The cells of the costmap whose cost equals `LETHAL_COST`, in the words of the
specification ("every cell whose cost equals the lethal threshold"), over the grid
indices `i < X`, `j < Y`. -/
def lethal_cells (LETHAL_COST : Int) (costmap : Costmap2D α) : List (Nat × Nat) :=
  (List.range costmap.getSizeInCellsX.toNat).flatMap fun i =>
    ((List.range costmap.getSizeInCellsY.toNat).filter fun j =>
      decide (costmap.getCost i j = LETHAL_COST)).map fun j => (i, j)

/-- The point that stands for a cell: its world coordinates and `z = 0`. -/
def cell_centroid (costmap : Costmap2D α) (c : Nat × Nat) : PointXYZ α :=
  ⟨(costmap.mapToWorld c.1 c.2).1, (costmap.mapToWorld c.1 c.2).2, 0⟩

/-- A costmap of 2 by 2 cells whose cells `(0, 1)` and `(1, 0)` hold the cost 254; the
world coordinates of a cell are its indices. -/
def grid_two_by_two : Costmap2D α :=
  { getSizeInCellsX := 2
    getSizeInCellsY := 2
    getCost := fun i j => if (i = 0 ∧ j = 1) ∨ (i = 1 ∧ j = 0) then 254 else 0
    mapToWorld := fun i j => ((i : α), (j : α)) }

/-- A costmap of 0 by 3 cells. -/
def grid_empty : Costmap2D α :=
  { getSizeInCellsX := 0
    getSizeInCellsY := 3
    getCost := fun _ _ => 254
    mapToWorld := fun i j => ((i : α), (j : α)) }

/-- A costmap of one cell, of cost 254, whose world coordinates are `(0.1, 0)`. -/
def grid_one_cell : Costmap2D α :=
  { getSizeInCellsX := 1
    getSizeInCellsY := 1
    getCost := fun _ _ => 254
    mapToWorld := fun _ _ => (0.1, 0) }

/-- The identity transform, one of the values the local `transform` can hold when it has
not been assigned. -/
def identity_transform : StampedTransform α :=
  { row_x := ⟨1, 0, 0⟩, row_y := ⟨0, 1, 0⟩, row_z := ⟨0, 0, 1⟩, origin := ⟨0, 0, 0⟩ }

/-- A pass whose transform lookup fails: the costmap has one lethal cell at `(0.1, 0)`,
the listener knows no transform, and the local `transform` holds the identity. -/
def snapshot_lookup_fails : Snapshot α :=
  { costmap := grid_one_cell
    tf := ⟨fun _ _ => none⟩
    transform := identity_transform
    now := 0 }

end Defs

section Clamping

variable {α : Type} [LinearOrderedField α]

/-- The clamp applied by `move_base` to one axis keeps the value between `-b` and `b`
when `b` is not negative. -/
theorem clamp_abs_le (b v : α) (hb : 0 ≤ b) :
    |if v > b then b else if v < -b then -b else v| ≤ b := by
  split_ifs with h1 h2
  · rw [abs_of_nonneg hb]
  · rw [abs_neg, abs_of_nonneg hb]
  · exact abs_le.mpr ⟨le_of_not_lt h2, le_of_not_lt h1⟩

/-- C1 (counterexample): with `max_velocity` set to -1 the command published for the zero
force has `linear.x = -1`, whose absolute value 1 is not at most `max_velocity`. -/
theorem move_base_negative_max_velocity_unbounded :
    ¬ (∀ (self : ForceFieldRecovery ℚ) (force : Vector3 ℚ),
        |(move_base self (force.x * self.velocity_scale_)
            (force.y * self.velocity_scale_)).linear.x| ≤ self.max_velocity_
        ∧ |(move_base self (force.x * self.velocity_scale_)
            (force.y * self.velocity_scale_)).linear.y| ≤ self.max_velocity_) := by
  intro h
  have h1 := (h (initialise constructed (some 1) (some 2) (some 3)
    { (noParams : ParamServer ℚ) with max_velocity := some (-1) }) ⟨0, 0, 0⟩).1
  norm_num [move_base, initialise, constructed, noParams, param] at h1

/-- C1 (amended): when `max_velocity_` is not negative, the command that `move_base`
publishes for the input `(force.x * velocity_scale_, force.y * velocity_scale_)` has
both linear components of absolute value at most `max_velocity_`. -/
theorem move_base_clamped (self : ForceFieldRecovery α) (force : Vector3 α)
    (hmax : 0 ≤ self.max_velocity_) :
    |(move_base self (force.x * self.velocity_scale_)
        (force.y * self.velocity_scale_)).linear.x| ≤ self.max_velocity_
    ∧ |(move_base self (force.x * self.velocity_scale_)
        (force.y * self.velocity_scale_)).linear.y| ≤ self.max_velocity_ :=
  ⟨clamp_abs_le _ _ hmax, clamp_abs_le _ _ hmax⟩

/-- C1 (witness): the default object (`max_velocity` 0.3, scale 0.6) and the force
`(-1, 1, 0)`; the published command is `(-0.3, 0.3)`. -/
theorem move_base_clamped_witness :
    (0 : ℚ) ≤ (defaultObject : ForceFieldRecovery ℚ).max_velocity_
    ∧ (move_base (defaultObject : ForceFieldRecovery ℚ)
        ((-1) * (defaultObject : ForceFieldRecovery ℚ).velocity_scale_)
        (1 * (defaultObject : ForceFieldRecovery ℚ).velocity_scale_)).linear
      = ⟨-0.3, 0.3, 0⟩
    ∧ (|(move_base (defaultObject : ForceFieldRecovery ℚ)
        ((⟨-1, 1, 0⟩ : Vector3 ℚ).x * (defaultObject : ForceFieldRecovery ℚ).velocity_scale_)
        ((⟨-1, 1, 0⟩ : Vector3 ℚ).y
          * (defaultObject : ForceFieldRecovery ℚ).velocity_scale_)).linear.x|
        ≤ (defaultObject : ForceFieldRecovery ℚ).max_velocity_
      ∧ |(move_base (defaultObject : ForceFieldRecovery ℚ)
        ((⟨-1, 1, 0⟩ : Vector3 ℚ).x * (defaultObject : ForceFieldRecovery ℚ).velocity_scale_)
        ((⟨-1, 1, 0⟩ : Vector3 ℚ).y
          * (defaultObject : ForceFieldRecovery ℚ).velocity_scale_)).linear.y|
        ≤ (defaultObject : ForceFieldRecovery ℚ).max_velocity_) :=
  ⟨by norm_num [defaultObject, initialise, constructed, noParams, param],
   by norm_num [move_base, defaultObject, initialise, constructed, noParams, param],
   move_base_clamped defaultObject ⟨-1, 1, 0⟩
    (by norm_num [defaultObject, initialise, constructed, noParams, param])⟩

end Clamping

section ForceFieldLemmas

variable {α : Type} [LinearOrderedField α]

/-- The loop of `compute_force_field` subtracts exactly the qualifying points and counts
them. -/
theorem foldl_compute_force_field_step (m : CMath α) (self : ForceFieldRecovery α)
    (cloud : List (PointXYZ α)) (acc : Vector3 α × Int) :
    cloud.foldl (compute_force_field_step m self) acc
      = (⟨acc.1.x - ((qualifying m self cloud).map fun p => p.x).sum,
          acc.1.y - ((qualifying m self cloud).map fun p => p.y).sum, acc.1.z⟩,
         acc.2 + ((qualifying m self cloud).length : Int)) := by
  induction cloud generalizing acc with
  | nil => simp [qualifying]
  | cons p ps ih =>
    rw [List.foldl_cons, ih]
    by_cases hp : within_neighborhood m self p
    · have hstep : compute_force_field_step m self acc p
          = (acc.1.sub ⟨p.x, p.y, 0⟩, acc.2 + 1) := by
        unfold compute_force_field_step
        exact if_pos hp
      have hq : qualifying m self (p :: ps) = p :: qualifying m self ps := by
        simp [qualifying, hp]
      rw [hstep, hq]
      simp only [Vector3.sub, List.map_cons, List.sum_cons, List.length_cons,
        Prod.mk.injEq, Vector3.mk.injEq]
      refine ⟨⟨by ring, by ring, by ring⟩, ?_⟩
      push_cast
      ring
    · have hstep : compute_force_field_step m self acc p = acc := by
        unfold compute_force_field_step
        exact if_neg hp
      have hq : qualifying m self (p :: ps) = qualifying m self ps := by
        simp [qualifying, hp]
      rw [hstep, hq]

/-- Closed form of `compute_force_field`: zero when no point qualifies, otherwise the
normalised negated sum of the qualifying points. -/
theorem compute_force_field_eq (m : CMath α) (self : ForceFieldRecovery α)
    (cloud : List (PointXYZ α)) :
    compute_force_field m self cloud
      = if qualifying m self cloud = [] then ⟨0, 0, 0⟩
        else (negated_sum (qualifying m self cloud)).normalize m := by
  unfold compute_force_field
  simp only [foldl_compute_force_field_step]
  by_cases hq : qualifying m self cloud = []
  · simp [hq]
  · have hlen : ((qualifying m self cloud).length : Int) ≠ 0 := by
      simpa using hq
    simp only [zero_add, hlen, hq, if_false, negated_sum, zero_sub]
    have h1 : (1.0 : α) = 1 := by norm_num
    simp [Vector3.scale, h1]

/-- No point qualifies exactly when no point of the cloud is within the neighbourhood. -/
theorem qualifying_eq_nil_iff (m : CMath α) (self : ForceFieldRecovery α)
    (cloud : List (PointXYZ α)) :
    qualifying m self cloud = [] ↔ ∀ p ∈ cloud, ¬ within_neighborhood m self p := by
  simp [qualifying, List.filter_eq_nil_iff]

/-- A vector whose squared norm is not positive is the zero vector. -/
theorem eq_zero_of_squaredNorm_not_pos (a : Vector3 α) (h : ¬ a.squaredNorm > 0) :
    a = ⟨0, 0, 0⟩ := by
  obtain ⟨x, y, z⟩ := a
  simp only [Vector3.squaredNorm, gt_iff_lt, not_lt] at h
  have hx := mul_self_nonneg x
  have hy := mul_self_nonneg y
  have hz := mul_self_nonneg z
  have hx0 : x * x = 0 := by linarith
  have hy0 : y * y = 0 := by linarith
  have hz0 : z * z = 0 := by linarith
  simp only [mul_self_eq_zero] at hx0 hy0 hz0
  simp [hx0, hy0, hz0]

/-- The positive root of 1 is 1. -/
theorem CMath.SqrtSpec.sqrt_one {m : CMath α} (hm : m.SqrtSpec) : m.sqrt 1 = 1 := by
  obtain ⟨hpos, hsq⟩ := hm 1 one_pos
  have h : (m.sqrt 1 - 1) * (m.sqrt 1 + 1) = 0 := by ring_nf; ring_nf at hsq; linarith
  rcases mul_eq_zero.mp h with h | h
  · linarith
  · linarith

/-- The positive root of a square of a positive number is that number. -/
theorem CMath.SqrtSpec.sqrt_mul_self {m : CMath α} (hm : m.SqrtSpec) (a : α) (ha : 0 < a) :
    m.sqrt (a * a) = a := by
  obtain ⟨hpos, hsq⟩ := hm (a * a) (mul_pos ha ha)
  have h : (m.sqrt (a * a) - a) * (m.sqrt (a * a) + a) = 0 := by
    ring_nf; ring_nf at hsq; linarith
  rcases mul_eq_zero.mp h with h | h
  · linarith
  · linarith

/-- A normalised vector has norm 1 or is the zero vector. -/
theorem normalize_norm (m : CMath α) (hm : m.SqrtSpec) (a : Vector3 α) :
    (a.normalize m).norm m = 1 ∨ a.normalize m = ⟨0, 0, 0⟩ := by
  by_cases h : a.squaredNorm > 0
  · left
    obtain ⟨hpos, hsq⟩ := hm a.squaredNorm h
    have hne : m.sqrt a.squaredNorm ≠ 0 := ne_of_gt hpos
    have hone : (a.normalize m).squaredNorm = 1 := by
      unfold Vector3.normalize
      rw [if_pos h]
      have hden : a.x * a.x + a.y * a.y + a.z * a.z
          = m.sqrt a.squaredNorm * m.sqrt a.squaredNorm := hsq.symm
      generalize m.sqrt a.squaredNorm = s at hne hden
      simp only [Vector3.squaredNorm]
      field_simp
      linarith
    unfold Vector3.norm
    rw [hone]
    exact hm.sqrt_one
  · right
    unfold Vector3.normalize
    rw [if_neg h]
    exact eq_zero_of_squaredNorm_not_pos a h

/-- The force depends on the object only through `obstacle_neighborhood_`. -/
theorem compute_force_field_congr (m : CMath α) (s1 s2 : ForceFieldRecovery α)
    (h : s1.obstacle_neighborhood_ = s2.obstacle_neighborhood_) (cloud : List (PointXYZ α)) :
    compute_force_field m s1 cloud = compute_force_field m s2 cloud := by
  have hstep : compute_force_field_step m s1 = compute_force_field_step m s2 := by
    funext acc p
    simp only [compute_force_field_step, h]
  simp only [compute_force_field, hstep]

/-- A pass of the loop whose force has `x = 0` and `y = 0` leaves the loop through the
first `break`. -/
theorem move_base_away_loop_zero_force (m : CMath α) (start_time : α)
    (self : ForceFieldRecovery α) (n : Int) (published : List (Twist α)) (t : Tick α)
    (rest : List (Tick α))
    (h : (compute_force_field m self t.obstacle_cloud_bf).x = 0
      ∧ (compute_force_field m self t.obstacle_cloud_bf).y = 0) :
    move_base_away_loop m start_time self n published (t :: rest)
      = some ⟨self, published ++ [move_base self
          ((compute_force_field m self t.obstacle_cloud_bf).x * self.velocity_scale_)
          ((compute_force_field m self t.obstacle_cloud_bf).y * self.velocity_scale_)],
          true, false, n⟩ := by
  simp only [move_base_away_loop]
  rw [if_pos h]

/-- The force of a cloud with a single point `(b, 0)`, `b` not zero and of absolute
value below the radius, is the unit vector pointing away from it. -/
theorem compute_force_field_single (m : CMath α) (hm : m.SqrtSpec)
    (self : ForceFieldRecovery α) (b z : α) (hb : b ≠ 0)
    (hr : |b| < self.obstacle_neighborhood_) :
    compute_force_field m self [⟨b, 0, z⟩] = ⟨-b / |b|, 0, 0⟩ := by
  have habs : 0 < |b| := abs_pos.mpr hb
  have hsq : b * b + 0 * 0 + 0 * 0 = |b| * |b| := by
    rw [abs_mul_abs_self]; ring
  have hwithin : within_neighborhood m self ⟨b, 0, z⟩ := by
    simp only [within_neighborhood, Vector3.norm, Vector3.squaredNorm]
    rw [hsq, hm.sqrt_mul_self _ habs]
    exact hr
  have hq : qualifying m self [⟨b, 0, z⟩] = [⟨b, 0, z⟩] := by
    simp [qualifying, hwithin]
  have hsq2 : -b * -b + 0 * 0 + 0 * 0 = |b| * |b| := by
    rw [abs_mul_abs_self]; ring
  rw [compute_force_field_eq, hq]
  simp only [negated_sum, List.map_cons, List.map_nil, List.sum_cons, List.sum_nil,
    add_zero, neg_zero, Vector3.normalize, Vector3.squaredNorm, reduceCtorEq, if_false]
  rw [hsq2, hm.sqrt_mul_self _ habs, if_pos (mul_pos habs habs)]
  simp

/-- The real square root is a square root in the sense of `CMath.SqrtSpec`. -/
theorem real_sqrt_spec :
    (⟨Real.sqrt, fun y x => Complex.arg ⟨x, y⟩, Real.sin, Real.cos⟩ : CMath ℝ).SqrtSpec :=
  fun _ hz => ⟨Real.sqrt_pos.mpr hz, Real.mul_self_sqrt hz.le⟩

/-- Over the reals a point is within the neighbourhood exactly when the radius is
positive and the squared distance is below the squared radius. -/
theorem within_neighborhood_real (self : ForceFieldRecovery ℝ) (p : PointXYZ ℝ) :
    within_neighborhood
        (⟨Real.sqrt, fun y x => Complex.arg ⟨x, y⟩, Real.sin, Real.cos⟩ : CMath ℝ) self p
      ↔ 0 < self.obstacle_neighborhood_
        ∧ p.x * p.x + p.y * p.y < self.obstacle_neighborhood_ ^ 2 := by
  simp only [within_neighborhood, Vector3.norm, Vector3.squaredNorm, mul_zero, add_zero]
  constructor
  · intro h
    have hpos : 0 < self.obstacle_neighborhood_ := lt_of_le_of_lt (Real.sqrt_nonneg _) h
    exact ⟨hpos, (Real.sqrt_lt' hpos).mp h⟩
  · rintro ⟨hpos, h⟩
    exact (Real.sqrt_lt' hpos).mpr h

/-- The default object has the neighbourhood radius 0.6. -/
theorem defaultObject_obstacle_neighborhood :
    (defaultObject : ForceFieldRecovery α).obstacle_neighborhood_ = 0.6 := by
  simp [defaultObject, initialise, constructed, noParams, param]

end ForceFieldLemmas

section ForceField

variable {α : Type} [LinearOrderedField α]

/-- C2: when no point of the cloud of a pass is at a distance strictly below
`obstacle_neighborhood_` (the cloud is empty, or all its points are at the radius or
farther), `compute_force_field` returns exactly `(0, 0, 0)` and the pass that computes it,
whatever the loop state it starts from, leaves the loop at once with
`no_obstacles_in_radius = true`, having published the command for the zero force; as
the first pass of `move_base_away` it makes the invocation return as succeeded. -/
theorem no_obstacle_in_radius_succeeds (m : CMath α) (self : ForceFieldRecovery α)
    (start_time : α) (n : Int) (published : List (Twist α)) (t : Tick α)
    (rest : List (Tick α))
    (h : ∀ p ∈ t.obstacle_cloud_bf, ¬ within_neighborhood m self p) :
    compute_force_field m self t.obstacle_cloud_bf = ⟨0, 0, 0⟩
    ∧ move_base_away_loop m start_time self n published (t :: rest)
        = some ⟨self, published ++ [move_base self (0 * self.velocity_scale_)
            (0 * self.velocity_scale_)], true, false, n⟩
    ∧ ∃ r, move_base_away m self start_time (t :: rest) = some r
        ∧ r.no_obstacles_in_radius = true ∧ r.outcome = Outcome.SUCCEEDED
        ∧ r.published.length = 2 := by
  have hzero : compute_force_field m self t.obstacle_cloud_bf = ⟨0, 0, 0⟩ := by
    rw [compute_force_field_eq, if_pos ((qualifying_eq_nil_iff m self _).mpr h)]
  refine ⟨hzero, ?_, ?_⟩
  · have hl := move_base_away_loop_zero_force m start_time self n published t rest
      (by simp [hzero])
    rw [hl, hzero]
  · have hzero2 : compute_force_field m { self with allowed_oscillations_ := 0 }
        t.obstacle_cloud_bf = ⟨0, 0, 0⟩ := by
      exact (compute_force_field_congr m _ self rfl _).trans hzero
    have hl := move_base_away_loop_zero_force m start_time
      { self with allowed_oscillations_ := 0 } 0 [] t rest (by simp [hzero2])
    simp only [move_base_away, hl]
    exact ⟨_, rfl, rfl, rfl, rfl⟩

/-- C2 (witness): over the reals, the default object (radius 0.6) and a cloud with one
point at distance exactly 0.6 and one at `(1, 1)`. -/
theorem no_obstacle_in_radius_succeeds_witness :
    (∀ p ∈ (cloud_outside : List (PointXYZ ℝ)),
        ¬ within_neighborhood
          (⟨Real.sqrt, fun y x => Complex.arg ⟨x, y⟩, Real.sin, Real.cos⟩ : CMath ℝ)
          defaultObject p)
    ∧ compute_force_field
        (⟨Real.sqrt, fun y x => Complex.arg ⟨x, y⟩, Real.sin, Real.cos⟩ : CMath ℝ)
        defaultObject (cloud_outside : List (PointXYZ ℝ)) = ⟨0, 0, 0⟩
    ∧ ∃ r, move_base_away
        (⟨Real.sqrt, fun y x => Complex.arg ⟨x, y⟩, Real.sin, Real.cos⟩ : CMath ℝ)
        defaultObject 0 [⟨cloud_outside, 0⟩] = some r
      ∧ r.no_obstacles_in_radius = true ∧ r.outcome = Outcome.SUCCEEDED
      ∧ r.published.length = 2 := by
  have h : ∀ p ∈ (cloud_outside : List (PointXYZ ℝ)),
      ¬ within_neighborhood
        (⟨Real.sqrt, fun y x => Complex.arg ⟨x, y⟩, Real.sin, Real.cos⟩ : CMath ℝ)
        defaultObject p := by
    intro p hp
    rw [within_neighborhood_real, defaultObject_obstacle_neighborhood]
    simp only [cloud_outside, List.mem_cons, List.mem_singleton, List.not_mem_nil,
      or_false] at hp
    rcases hp with rfl | rfl <;> norm_num
  exact ⟨h, (no_obstacle_in_radius_succeeds _ defaultObject 0 0 [] ⟨cloud_outside, 0⟩ [] h).1,
    (no_obstacle_in_radius_succeeds _ defaultObject 0 0 [] ⟨cloud_outside, 0⟩ [] h).2.2⟩

/-- C3: when at least one point of the cloud lies strictly within
`obstacle_neighborhood_`, `compute_force_field` returns the normalised negated sum of
the qualifying points, a vector that has norm 1 or is exactly zero; in Scenario B (the
single point `(0.1, 0)`, radius 0.6) it returns `(-1, 0, 0)`. -/
theorem compute_force_field_unit_or_zero (m : CMath α) (hm : m.SqrtSpec)
    (self : ForceFieldRecovery α) (cloud : List (PointXYZ α))
    (h : ∃ p ∈ cloud, within_neighborhood m self p) :
    compute_force_field m self cloud = (negated_sum (qualifying m self cloud)).normalize m
    ∧ ((compute_force_field m self cloud).norm m = 1
        ∨ compute_force_field m self cloud = ⟨0, 0, 0⟩)
    ∧ (self.obstacle_neighborhood_ = 0.6
        → compute_force_field m self cloud_scenario_B = ⟨-1, 0, 0⟩) := by
  have hq : ¬ qualifying m self cloud = [] := by
    rw [qualifying_eq_nil_iff]
    push_neg
    exact h
  have heq : compute_force_field m self cloud
      = (negated_sum (qualifying m self cloud)).normalize m := by
    rw [compute_force_field_eq, if_neg hq]
  refine ⟨heq, ?_, ?_⟩
  · rw [heq]
    exact normalize_norm m hm _
  · intro hr
    have h1 : (0.1 : α) ≠ 0 := by norm_num
    have h2 : |(0.1 : α)| < self.obstacle_neighborhood_ := by
      rw [hr, abs_of_pos (by norm_num)]
      norm_num
    have h3 := compute_force_field_single m hm self 0.1 0 h1 h2
    rw [abs_of_pos (by norm_num)] at h3
    simp only [cloud_scenario_B]
    rw [h3]
    norm_num

/-- C3 (witness): over the reals, the default object (radius 0.6) and the cloud of
Scenario B; the force is `(-1, 0, 0)`, of norm 1. -/
theorem compute_force_field_unit_or_zero_witness :
    (⟨Real.sqrt, fun y x => Complex.arg ⟨x, y⟩, Real.sin, Real.cos⟩ : CMath ℝ).SqrtSpec
    ∧ (∃ p ∈ (cloud_scenario_B : List (PointXYZ ℝ)),
        within_neighborhood
          (⟨Real.sqrt, fun y x => Complex.arg ⟨x, y⟩, Real.sin, Real.cos⟩ : CMath ℝ)
          defaultObject p)
    ∧ compute_force_field
        (⟨Real.sqrt, fun y x => Complex.arg ⟨x, y⟩, Real.sin, Real.cos⟩ : CMath ℝ)
        defaultObject (cloud_scenario_B : List (PointXYZ ℝ)) = ⟨-1, 0, 0⟩
    ∧ (compute_force_field
        (⟨Real.sqrt, fun y x => Complex.arg ⟨x, y⟩, Real.sin, Real.cos⟩ : CMath ℝ)
        defaultObject (cloud_scenario_B : List (PointXYZ ℝ))).norm
        (⟨Real.sqrt, fun y x => Complex.arg ⟨x, y⟩, Real.sin, Real.cos⟩ : CMath ℝ) = 1 := by
  have h : ∃ p ∈ (cloud_scenario_B : List (PointXYZ ℝ)),
      within_neighborhood
        (⟨Real.sqrt, fun y x => Complex.arg ⟨x, y⟩, Real.sin, Real.cos⟩ : CMath ℝ)
        defaultObject p := by
    refine ⟨⟨0.1, 0, 0⟩, by simp [cloud_scenario_B], ?_⟩
    rw [within_neighborhood_real, defaultObject_obstacle_neighborhood]
    norm_num
  have hB := (compute_force_field_unit_or_zero _ real_sqrt_spec defaultObject
    cloud_scenario_B h).2.2 defaultObject_obstacle_neighborhood
  refine ⟨real_sqrt_spec, h, hB, ?_⟩
  rw [hB]
  simp [Vector3.norm, Vector3.squaredNorm]

/-- C4 (the code at the failing input): over the reals, with two obstacle points 0.1 m
away on opposite sides of the robot and the radius 0.6, both points lie strictly within
the neighbourhood, yet `compute_force_field` returns `(0, 0, 0)` and `move_base_away`
returns on that pass with `no_obstacles_in_radius = true`. -/
theorem symmetric_obstacles_reported_clear :
    (∀ p ∈ (cloud_symmetric : List (PointXYZ ℝ)),
        within_neighborhood
          (⟨Real.sqrt, fun y x => Complex.arg ⟨x, y⟩, Real.sin, Real.cos⟩ : CMath ℝ)
          defaultObject p)
    ∧ compute_force_field
        (⟨Real.sqrt, fun y x => Complex.arg ⟨x, y⟩, Real.sin, Real.cos⟩ : CMath ℝ)
        defaultObject (cloud_symmetric : List (PointXYZ ℝ)) = ⟨0, 0, 0⟩
    ∧ ∃ r, move_base_away
        (⟨Real.sqrt, fun y x => Complex.arg ⟨x, y⟩, Real.sin, Real.cos⟩ : CMath ℝ)
        defaultObject 0 [⟨cloud_symmetric, 0⟩] = some r
      ∧ r.no_obstacles_in_radius = true ∧ r.outcome = Outcome.SUCCEEDED := by
  have hw : ∀ p ∈ (cloud_symmetric : List (PointXYZ ℝ)),
      within_neighborhood
        (⟨Real.sqrt, fun y x => Complex.arg ⟨x, y⟩, Real.sin, Real.cos⟩ : CMath ℝ)
        defaultObject p := by
    intro p hp
    rw [within_neighborhood_real, defaultObject_obstacle_neighborhood]
    simp only [cloud_symmetric, List.mem_cons, List.mem_singleton, List.not_mem_nil,
      or_false] at hp
    rcases hp with rfl | rfl <;> norm_num
  have hq : ∀ s : ForceFieldRecovery ℝ, s.obstacle_neighborhood_ = 0.6 →
      compute_force_field
        (⟨Real.sqrt, fun y x => Complex.arg ⟨x, y⟩, Real.sin, Real.cos⟩ : CMath ℝ)
        s (cloud_symmetric : List (PointXYZ ℝ)) = ⟨0, 0, 0⟩ := by
    intro s hs
    have hall : qualifying
        (⟨Real.sqrt, fun y x => Complex.arg ⟨x, y⟩, Real.sin, Real.cos⟩ : CMath ℝ)
        s (cloud_symmetric : List (PointXYZ ℝ)) = cloud_symmetric := by
      unfold qualifying
      rw [List.filter_eq_self]
      intro p hp
      rw [decide_eq_true_eq, within_neighborhood_real, hs]
      simp only [cloud_symmetric, List.mem_cons, List.mem_singleton, List.not_mem_nil,
        or_false] at hp
      rcases hp with rfl | rfl <;> norm_num
    rw [compute_force_field_eq, hall]
    simp [cloud_symmetric, negated_sum, Vector3.normalize, Vector3.squaredNorm]
  refine ⟨hw, hq _ defaultObject_obstacle_neighborhood, ?_⟩
  have hl := move_base_away_loop_zero_force
    (⟨Real.sqrt, fun y x => Complex.arg ⟨x, y⟩, Real.sin, Real.cos⟩ : CMath ℝ) 0
    { (defaultObject : ForceFieldRecovery ℝ) with allowed_oscillations_ := 0 } 0 []
    ⟨cloud_symmetric, 0⟩ []
    (by
      have h0 := hq { (defaultObject : ForceFieldRecovery ℝ) with allowed_oscillations_ := 0 }
        defaultObject_obstacle_neighborhood
      exact ⟨congrArg Vector3.x h0, congrArg Vector3.y h0⟩)
  simp only [move_base_away, hl]
  exact ⟨_, rfl, rfl, rfl⟩

end ForceField

section Oscillation

variable {α : Type} [LinearOrderedField α]

/-- C6: a call of `detect_oscillations` leaves `number_of_oscillations` unchanged or
makes it exactly one greater; it is one greater exactly when the call compares with a
previous angle (`detect_oscillation_is_enabled_` is set) and the wrapped difference
`atan2(sin d, cos d)` for `d = current_angle - previous_angle_` has absolute value above
`oscillation_angular_tolerance_`; the counter never decreases. -/
theorem detect_oscillations_counter (m : CMath α) (self : ForceFieldRecovery α)
    (force_field : Vector3 α) (n : Int) :
    ((detect_oscillations m self force_field n).number_of_oscillations = n
      ∨ (detect_oscillations m self force_field n).number_of_oscillations = n + 1)
    ∧ ((detect_oscillations m self force_field n).number_of_oscillations = n + 1
      ↔ (self.detect_oscillation_is_enabled_ = true
        ∧ |m.atan2 (m.sin (m.atan2 force_field.y force_field.x - self.previous_angle_))
            (m.cos (m.atan2 force_field.y force_field.x - self.previous_angle_))|
          > self.oscillation_angular_tolerance_))
    ∧ n ≤ (detect_oscillations m self force_field n).number_of_oscillations := by
  unfold detect_oscillations
  by_cases hen : self.detect_oscillation_is_enabled_ = true
  · by_cases hbig : |m.atan2 (m.sin (m.atan2 force_field.y force_field.x - self.previous_angle_))
        (m.cos (m.atan2 force_field.y force_field.x - self.previous_angle_))|
        > self.oscillation_angular_tolerance_
    · simp [hen, hbig]
    · simp [hen, hbig]
  · simp [hen]

/-- The angle of the direction `(1, 0)` is 0 over the reals. -/
theorem arg_mk_one : Complex.arg ⟨1, 0⟩ = 0 := by
  have h : (⟨1, 0⟩ : ℂ) = 1 := by apply Complex.ext <;> simp
  rw [h, Complex.arg_one]

/-- The angle of the direction `(-1, 0)` is `π` over the reals. -/
theorem arg_mk_neg_one : Complex.arg ⟨-1, 0⟩ = Real.pi := by
  have h : (⟨-1, 0⟩ : ℂ) = -1 := by apply Complex.ext <;> simp
  rw [h, Complex.arg_neg_one]

/-- The default tolerance 2.8 is below `π`. -/
theorem tolerance_lt_pi : (2.8 : ℝ) < |Real.pi| := by
  rw [abs_of_pos Real.pi_pos]
  have := Real.pi_gt_three
  norm_num
  linarith

/-- Over the reals, the cloud of Scenario B gives the force `(-1, 0, 0)` for every
object with the radius 0.6. -/
theorem force_scenario_B (s : ForceFieldRecovery ℝ) (hs : s.obstacle_neighborhood_ = 0.6) :
    compute_force_field
      (⟨Real.sqrt, fun y x => Complex.arg ⟨x, y⟩, Real.sin, Real.cos⟩ : CMath ℝ)
      s cloud_scenario_B = ⟨-1, 0, 0⟩ := by
  have h := compute_force_field_single _ real_sqrt_spec s 0.1 0 (by norm_num)
    (by rw [hs, abs_of_pos (by norm_num)]; norm_num)
  rw [abs_of_pos (by norm_num)] at h
  simp only [cloud_scenario_B]
  rw [h]
  norm_num

/-- Over the reals, the cloud with the single point `(-0.1, 0)` gives the force
`(1, 0, 0)` for every object with the radius 0.6. -/
theorem force_behind (s : ForceFieldRecovery ℝ) (hs : s.obstacle_neighborhood_ = 0.6) :
    compute_force_field
      (⟨Real.sqrt, fun y x => Complex.arg ⟨x, y⟩, Real.sin, Real.cos⟩ : CMath ℝ)
      s cloud_behind = ⟨1, 0, 0⟩ := by
  have h := compute_force_field_single _ real_sqrt_spec s (-0.1) 0 (by norm_num)
    (by rw [hs, abs_of_neg (by norm_num)]; norm_num)
  rw [abs_of_neg (by norm_num)] at h
  simp only [cloud_behind]
  rw [h]
  norm_num

/-- The empty cloud gives the zero force. -/
theorem force_nil (m : CMath α) (s : ForceFieldRecovery α) :
    compute_force_field m s [] = ⟨0, 0, 0⟩ := by
  simp [compute_force_field]

/-- While `detect_oscillation_is_enabled_` is clear, `detect_oscillations` called with
the counter at 0 and `allowed_oscillations_` at 0 returns false, sets the flag and
records the angle of the force. -/
theorem detect_oscillations_warm_up (m : CMath α) (self : ForceFieldRecovery α)
    (force_field : Vector3 α) (hflag : self.detect_oscillation_is_enabled_ = false)
    (hallowed : self.allowed_oscillations_ = 0) :
    (detect_oscillations m self force_field 0).result = false
    ∧ (detect_oscillations m self force_field 0).self.detect_oscillation_is_enabled_ = true
    ∧ (detect_oscillations m self force_field 0).self.previous_angle_
        = m.atan2 force_field.y force_field.x := by
  simp [detect_oscillations, hflag, hallowed]

/-- C5 (the code at the failing input): over the reals, on the default object, a first
invocation sees the force `(-1, 0)` and then an empty cloud and succeeds; a second
invocation on the same object whose first pass sees the force `(1, 0)` has
`detect_oscillations` return true on that first pass and stops there as oscillating. -/
theorem second_invocation_first_tick_oscillating :
    ∃ r1, move_base_away
        (⟨Real.sqrt, fun y x => Complex.arg ⟨x, y⟩, Real.sin, Real.cos⟩ : CMath ℝ)
        defaultObject 0 [⟨cloud_scenario_B, 0⟩, ⟨[], 0.2⟩] = some r1
      ∧ r1.outcome = Outcome.SUCCEEDED
      ∧ r1.self.initialized_ = true
      ∧ (detect_oscillations
          (⟨Real.sqrt, fun y x => Complex.arg ⟨x, y⟩, Real.sin, Real.cos⟩ : CMath ℝ)
          { r1.self with allowed_oscillations_ := 0 } ⟨1, 0, 0⟩ 0).result = true
      ∧ ∃ r2, move_base_away
          (⟨Real.sqrt, fun y x => Complex.arg ⟨x, y⟩, Real.sin, Real.cos⟩ : CMath ℝ)
          r1.self 10 [⟨cloud_behind, 10⟩] = some r2
        ∧ r2.outcome = Outcome.OSCILLATING
        ∧ r2.number_of_oscillations = 1
        ∧ r2.published.length = 2 := by
  cases hrun : move_base_away
      (⟨Real.sqrt, fun y x => Complex.arg ⟨x, y⟩, Real.sin, Real.cos⟩ : CMath ℝ)
      defaultObject 0 [⟨cloud_scenario_B, 0⟩, ⟨[], 0.2⟩] with
  | none =>
    norm_num [move_base_away, move_base_away_loop, force_scenario_B, force_nil,
      detect_oscillations, defaultObject, initialise, constructed, noParams, param] at hrun
    exact absurd hrun (Option.some_ne_none _)
  | some r1 =>
    norm_num [move_base_away, move_base_away_loop, force_scenario_B, force_nil,
      detect_oscillations, defaultObject, initialise, constructed, noParams, param,
      arg_mk_neg_one] at hrun
    subst hrun
    have hpi : (14 / 5 : ℝ) < |Real.pi| := by
      have := tolerance_lt_pi
      norm_num at this
      exact this
    refine ⟨_, rfl, rfl, rfl, ?_, ?_⟩
    · norm_num [detect_oscillations, arg_mk_one, arg_mk_neg_one, hpi]
    · cases hrun2 : move_base_away
          (⟨Real.sqrt, fun y x => Complex.arg ⟨x, y⟩, Real.sin, Real.cos⟩ : CMath ℝ)
          _ 10 [⟨cloud_behind, 10⟩] with
      | none =>
        norm_num [move_base_away, move_base_away_loop, force_behind, detect_oscillations,
          arg_mk_one, arg_mk_neg_one, hpi] at hrun2
        exact absurd hrun2 (Option.some_ne_none _)
      | some r2 =>
        norm_num [move_base_away, move_base_away_loop, force_behind, detect_oscillations,
          arg_mk_one, arg_mk_neg_one, hpi] at hrun2
        subst hrun2
        exact ⟨_, rfl, rfl, rfl, rfl⟩

/-- C7 (the code at the failing input): over the reals, the object is initialised with
`allowed_oscillations = 2`; the force is `(1, 0)` on the first pass and `(-1, 0)` on the
second.  The invocation stops as oscillating on the second pass, at the first counted
oscillation, because `move_base_away` has set `allowed_oscillations_` to 0. -/
theorem configured_allowed_oscillations_ignored :
    (objectAllowingTwo : ForceFieldRecovery ℝ).allowed_oscillations_ = 2
    ∧ ∃ r, move_base_away
        (⟨Real.sqrt, fun y x => Complex.arg ⟨x, y⟩, Real.sin, Real.cos⟩ : CMath ℝ)
        objectAllowingTwo 0 [⟨cloud_behind, 0⟩, ⟨cloud_scenario_B, 0.2⟩] = some r
      ∧ r.outcome = Outcome.OSCILLATING
      ∧ r.number_of_oscillations = 1
      ∧ ¬ (r.number_of_oscillations > 2)
      ∧ r.self.allowed_oscillations_ = 0
      ∧ r.published.length = 3 := by
  have hpi : (14 / 5 : ℝ) < |Real.pi| := by
    have := tolerance_lt_pi
    norm_num at this
    exact this
  refine ⟨by simp [objectAllowingTwo, initialise, constructed, noParams, param], ?_⟩
  cases hrun : move_base_away
      (⟨Real.sqrt, fun y x => Complex.arg ⟨x, y⟩, Real.sin, Real.cos⟩ : CMath ℝ)
      objectAllowingTwo 0 [⟨cloud_behind, 0⟩, ⟨cloud_scenario_B, 0.2⟩] with
  | none =>
    norm_num [move_base_away, move_base_away_loop, force_scenario_B, force_behind,
      detect_oscillations, objectAllowingTwo, initialise, constructed, noParams, param,
      arg_mk_one, arg_mk_neg_one, hpi] at hrun
    exact absurd hrun (Option.some_ne_none _)
  | some r =>
    norm_num [move_base_away, move_base_away_loop, force_scenario_B, force_behind,
      detect_oscillations, objectAllowingTwo, initialise, constructed, noParams, param,
      arg_mk_one, arg_mk_neg_one, hpi] at hrun
    subst hrun
    exact ⟨_, rfl, rfl, rfl, by decide, rfl, rfl⟩

/-- The default object, fresh: the force `(1, 0)` and then an empty cloud end in success
after two passes. -/
theorem fresh_run_succeeds : ∃ r, move_base_away
      (⟨Real.sqrt, fun y x => Complex.arg ⟨x, y⟩, Real.sin, Real.cos⟩ : CMath ℝ)
      defaultObject 0 [⟨cloud_behind, 0⟩, ⟨[], 0.2⟩] = some r
    ∧ r.outcome = Outcome.SUCCEEDED ∧ r.published.length = 3 := by
  cases hrun : move_base_away
      (⟨Real.sqrt, fun y x => Complex.arg ⟨x, y⟩, Real.sin, Real.cos⟩ : CMath ℝ)
      defaultObject 0 [⟨cloud_behind, 0⟩, ⟨[], 0.2⟩] with
  | none =>
    norm_num [move_base_away, move_base_away_loop, force_behind, force_nil,
      detect_oscillations, defaultObject, initialise, constructed, noParams, param,
      arg_mk_one] at hrun
    exact absurd hrun (Option.some_ne_none _)
  | some r =>
    norm_num [move_base_away, move_base_away_loop, force_behind, force_nil,
      detect_oscillations, defaultObject, initialise, constructed, noParams, param,
      arg_mk_one] at hrun
    subst hrun
    exact ⟨_, rfl, rfl, rfl⟩

/-- The default object, fresh: after an invocation that saw the force `(-1, 0)` the object
keeps the warm-up flag set and the angle `π`. -/
theorem earlier_run_leaves_state : ∃ r, move_base_away
      (⟨Real.sqrt, fun y x => Complex.arg ⟨x, y⟩, Real.sin, Real.cos⟩ : CMath ℝ)
      defaultObject 0 [⟨cloud_scenario_B, 0⟩, ⟨[], 0.2⟩] = some r
    ∧ r.self = defaultObjectAfter Real.pi := by
  cases hrun : move_base_away
      (⟨Real.sqrt, fun y x => Complex.arg ⟨x, y⟩, Real.sin, Real.cos⟩ : CMath ℝ)
      defaultObject 0 [⟨cloud_scenario_B, 0⟩, ⟨[], 0.2⟩] with
  | none =>
    norm_num [move_base_away, move_base_away_loop, force_scenario_B, force_nil,
      detect_oscillations, defaultObject, initialise, constructed, noParams, param,
      arg_mk_neg_one] at hrun
    exact absurd hrun (Option.some_ne_none _)
  | some r =>
    norm_num [move_base_away, move_base_away_loop, force_scenario_B, force_nil,
      detect_oscillations, defaultObject, initialise, constructed, noParams, param,
      arg_mk_neg_one] at hrun
    subst hrun
    refine ⟨_, rfl, ?_⟩
    norm_num [defaultObjectAfter, defaultObject, initialise, constructed, noParams, param]

/-- The default object with the state an earlier invocation left: the force `(1, 0)` on the
first pass ends the invocation as oscillating. -/
theorem later_run_oscillates : ∃ r, move_base_away
      (⟨Real.sqrt, fun y x => Complex.arg ⟨x, y⟩, Real.sin, Real.cos⟩ : CMath ℝ)
      (defaultObjectAfter Real.pi) 0 [⟨cloud_behind, 0⟩, ⟨[], 0.2⟩] = some r
    ∧ r.outcome = Outcome.OSCILLATING ∧ r.published.length = 2 := by
  have hpi : (14 / 5 : ℝ) < |Real.pi| := by
    have := tolerance_lt_pi
    norm_num at this
    exact this
  cases hrun : move_base_away
      (⟨Real.sqrt, fun y x => Complex.arg ⟨x, y⟩, Real.sin, Real.cos⟩ : CMath ℝ)
      (defaultObjectAfter Real.pi) 0 [⟨cloud_behind, 0⟩, ⟨[], 0.2⟩] with
  | none =>
    norm_num [move_base_away, move_base_away_loop, force_behind, force_nil,
      detect_oscillations, defaultObjectAfter, defaultObject, initialise, constructed,
      noParams, param, arg_mk_one, arg_mk_neg_one, hpi] at hrun
    exact absurd hrun (Option.some_ne_none _)
  | some r =>
    norm_num [move_base_away, move_base_away_loop, force_behind, force_nil,
      detect_oscillations, defaultObjectAfter, defaultObject, initialise, constructed,
      noParams, param, arg_mk_one, arg_mk_neg_one, hpi] at hrun
    subst hrun
    exact ⟨_, rfl, rfl, rfl⟩

/-- C8 (the code at the failing input): over the reals, the same passes (the force
`(1, 0)`, then an empty cloud, with the same clock readings) are run on the default
object twice: once fresh, once after an earlier invocation that saw the force `(-1, 0)`.
The configuration is the same in both runs, yet the fresh run succeeds after two passes
and the later one stops as oscillating on its first pass. -/
theorem outcome_depends_on_earlier_invocation :
    ∃ r_fresh r_earlier r_later,
      move_base_away
        (⟨Real.sqrt, fun y x => Complex.arg ⟨x, y⟩, Real.sin, Real.cos⟩ : CMath ℝ)
        defaultObject 0 [⟨cloud_behind, 0⟩, ⟨[], 0.2⟩] = some r_fresh
      ∧ move_base_away
        (⟨Real.sqrt, fun y x => Complex.arg ⟨x, y⟩, Real.sin, Real.cos⟩ : CMath ℝ)
        defaultObject 0 [⟨cloud_scenario_B, 0⟩, ⟨[], 0.2⟩] = some r_earlier
      ∧ move_base_away
        (⟨Real.sqrt, fun y x => Complex.arg ⟨x, y⟩, Real.sin, Real.cos⟩ : CMath ℝ)
        r_earlier.self 0 [⟨cloud_behind, 0⟩, ⟨[], 0.2⟩] = some r_later
      ∧ r_earlier.self.velocity_scale_ = (defaultObject : ForceFieldRecovery ℝ).velocity_scale_
      ∧ r_earlier.self.obstacle_neighborhood_
          = (defaultObject : ForceFieldRecovery ℝ).obstacle_neighborhood_
      ∧ r_earlier.self.max_velocity_ = (defaultObject : ForceFieldRecovery ℝ).max_velocity_
      ∧ r_earlier.self.timeout_ = (defaultObject : ForceFieldRecovery ℝ).timeout_
      ∧ r_earlier.self.oscillation_angular_tolerance_
          = (defaultObject : ForceFieldRecovery ℝ).oscillation_angular_tolerance_
      ∧ r_earlier.self.allowed_oscillations_
          = (defaultObject : ForceFieldRecovery ℝ).allowed_oscillations_
      ∧ r_fresh.outcome = Outcome.SUCCEEDED
      ∧ r_later.outcome = Outcome.OSCILLATING
      ∧ r_fresh.published.length = 3
      ∧ r_later.published.length = 2 := by
  obtain ⟨r_fresh, h1, h1o, h1l⟩ := fresh_run_succeeds
  obtain ⟨r_earlier, h2, h2s⟩ := earlier_run_leaves_state
  obtain ⟨r_later, h3, h3o, h3l⟩ := later_run_oscillates
  refine ⟨r_fresh, r_earlier, r_later, h1, h2, ?_, ?_, ?_, ?_, ?_, ?_, ?_, h1o, h3o, h1l, h3l⟩
  · rw [h2s]; exact h3
  all_goals rw [h2s]; rfl

end Oscillation

section Loop

variable {α : Type} [LinearOrderedField α]

/-- The call `detect_oscillations` does not change `max_velocity_`. -/
theorem detect_oscillations_max_velocity (m : CMath α) (self : ForceFieldRecovery α)
    (f : Vector3 α) (n : Int) :
    (detect_oscillations m self f n).self.max_velocity_ = self.max_velocity_ := by
  unfold detect_oscillations
  split_ifs <;> rfl

/-- The call `detect_oscillations` does not change `timeout_`. -/
theorem detect_oscillations_timeout (m : CMath α) (self : ForceFieldRecovery α)
    (f : Vector3 α) (n : Int) :
    (detect_oscillations m self f n).self.timeout_ = self.timeout_ := by
  unfold detect_oscillations
  split_ifs <;> rfl

/-- The loop does not change `max_velocity_`. -/
theorem move_base_away_loop_max_velocity (m : CMath α) (start_time : α)
    (ticks : List (Tick α)) :
    ∀ (self : ForceFieldRecovery α) (n : Int) (published : List (Twist α))
      (r : RunResult α),
      move_base_away_loop m start_time self n published ticks = some r →
      r.self.max_velocity_ = self.max_velocity_ := by
  induction ticks with
  | nil =>
    intro self n published r h
    simp [move_base_away_loop] at h
  | cons t ts ih =>
    intro self n published r h
    simp only [move_base_away_loop] at h
    split_ifs at h with h1 h2 h3
    · cases h; rfl
    · cases h; exact detect_oscillations_max_velocity m self _ n
    · cases h; exact detect_oscillations_max_velocity m self _ n
    · rw [ih _ _ _ _ h]
      exact detect_oscillations_max_velocity m self _ n

/-- With a `max_velocity_` that is not negative, `move_base(0.0, 0.0)` publishes the
zero command. -/
theorem move_base_zero (self : ForceFieldRecovery α) (h : 0 ≤ self.max_velocity_) :
    move_base self 0.0 0.0 = ⟨⟨0, 0, 0⟩, ⟨0, 0, 0⟩⟩ := by
  have h0 : (0.0 : α) = 0 := by norm_num
  have h1 : ¬ (0 : α) > self.max_velocity_ := not_lt.mpr h
  have h2 : ¬ (0 : α) < -self.max_velocity_ := by
    rw [not_lt]; linarith
  simp only [move_base, h0, h1, h2, if_false]

/-- C9 (counterexample): over the reals, with `max_velocity` set to -1 and an empty
cloud on the first pass, the invocation succeeds and the last command it publishes is
`(-1, -1)`, not `(0, 0)`. -/
theorem final_command_nonzero_negative_max :
    ∃ r, move_base_away
        (⟨Real.sqrt, fun y x => Complex.arg ⟨x, y⟩, Real.sin, Real.cos⟩ : CMath ℝ)
        objectNegativeMax 0 [⟨[], 0⟩] = some r
      ∧ r.outcome = Outcome.SUCCEEDED
      ∧ r.published.getLast? = some ⟨⟨-1, -1, 0⟩, ⟨0, 0, 0⟩⟩ := by
  cases hrun : move_base_away
      (⟨Real.sqrt, fun y x => Complex.arg ⟨x, y⟩, Real.sin, Real.cos⟩ : CMath ℝ)
      objectNegativeMax 0 [⟨[], 0⟩] with
  | none =>
    norm_num [move_base_away, move_base_away_loop, force_nil, objectNegativeMax,
      initialise, constructed, noParams, param] at hrun
    exact absurd hrun (Option.some_ne_none _)
  | some r =>
    norm_num [move_base_away, move_base_away_loop, force_nil, objectNegativeMax,
      initialise, constructed, noParams, param] at hrun
    subst hrun
    refine ⟨_, rfl, rfl, ?_⟩
    norm_num [move_base]

/-- C9 (amended): when `max_velocity_` is not negative, every invocation of
`move_base_away` that returns (through any of the three exits of the loop) has
published `(0, 0)` as its last command. -/
theorem final_command_is_stop (m : CMath α) (self : ForceFieldRecovery α) (start_time : α)
    (ticks : List (Tick α)) (r : RunResult α) (hmax : 0 ≤ self.max_velocity_)
    (hrun : move_base_away m self start_time ticks = some r) :
    r.published.getLast? = some ⟨⟨0, 0, 0⟩, ⟨0, 0, 0⟩⟩ := by
  unfold move_base_away at hrun
  cases hloop : move_base_away_loop m start_time
      { self with allowed_oscillations_ := 0 } 0 [] ticks with
  | none =>
    simp only [hloop] at hrun
    exact absurd hrun (by simp)
  | some r0 =>
    simp only [hloop] at hrun
    have hr : r = { r0 with published := r0.published ++ [move_base r0.self 0.0 0.0] } := by
      simpa using hrun.symm
    have hmax0 : r0.self.max_velocity_ = self.max_velocity_ :=
      move_base_away_loop_max_velocity m start_time ticks
        { self with allowed_oscillations_ := 0 } _ _ _ hloop
    rw [hr, move_base_zero r0.self (by rw [hmax0]; exact hmax)]
    simp

/-- C9 (witness): over the reals, the default object (`max_velocity` 0.3), one pass with
the force `(1, 0)` and one with an empty cloud. -/
theorem final_command_is_stop_witness :
    (0 : ℝ) ≤ (defaultObject : ForceFieldRecovery ℝ).max_velocity_
    ∧ ∃ r, move_base_away
        (⟨Real.sqrt, fun y x => Complex.arg ⟨x, y⟩, Real.sin, Real.cos⟩ : CMath ℝ)
        defaultObject 0 [⟨cloud_behind, 0⟩, ⟨[], 0.2⟩] = some r
      ∧ r.published.getLast? = some ⟨⟨0, 0, 0⟩, ⟨0, 0, 0⟩⟩ := by
  have hmax : (0 : ℝ) ≤ (defaultObject : ForceFieldRecovery ℝ).max_velocity_ := by
    norm_num [defaultObject, initialise, constructed, noParams, param]
  obtain ⟨r, hr, _, _⟩ := fresh_run_succeeds
  exact ⟨hmax, r, hr, final_command_is_stop _ defaultObject 0 _ r hmax hr⟩

/-- The loop, started in any state, runs through passes that take neither of the first
two exits and whose elapsed time does not exceed `timeout_`, and leaves through the
third exit on the first pass whose elapsed time exceeds `timeout_`. -/
theorem move_base_away_loop_timed_out (m : CMath α) (start_time : α) (t : Tick α)
    (rest : List (Tick α)) (pre : List (Tick α)) :
    ∀ (self : ForceFieldRecovery α) (n : Int) (published : List (Twist α)),
      passes_without_zero_or_oscillation m self n (pre ++ [t]) →
      (∀ u ∈ pre, ¬ (u.now - start_time > self.timeout_)) →
      t.now - start_time > self.timeout_ →
      (∃ r, move_base_away_loop m start_time self n published (pre ++ t :: rest) = some r
        ∧ r.timeout = true ∧ r.no_obstacles_in_radius = false
        ∧ r.published.length = published.length + pre.length + 1)
      ∧ move_base_away_loop m start_time self n published pre = none := by
  induction pre with
  | nil =>
    intro self n published hpass _ hlate
    obtain ⟨hnz, hosc, _⟩ := hpass
    refine ⟨?_, by simp [move_base_away_loop]⟩
    have hlate2 : t.now - start_time
        > (detect_oscillations m self (compute_force_field m self t.obstacle_cloud_bf)
            n).self.timeout_ := by
      rw [detect_oscillations_timeout]; exact hlate
    simp only [List.nil_append, move_base_away_loop]
    rw [if_neg hnz, if_neg (by simp [hosc]), if_pos hlate2]
    exact ⟨_, rfl, rfl, rfl, by simp⟩
  | cons u us ih =>
    intro self n published hpass hearly hlate
    obtain ⟨hnz, hosc, hpass2⟩ := hpass
    have hu : ¬ (u.now - start_time
        > (detect_oscillations m self (compute_force_field m self u.obstacle_cloud_bf)
            n).self.timeout_) := by
      rw [detect_oscillations_timeout]; exact hearly u (List.mem_cons_self _ _)
    have hstep : ∀ ts : List (Tick α),
        move_base_away_loop m start_time self n published (u :: ts)
        = move_base_away_loop m start_time
            (detect_oscillations m self (compute_force_field m self u.obstacle_cloud_bf)
              n).self
            (detect_oscillations m self (compute_force_field m self u.obstacle_cloud_bf)
              n).number_of_oscillations
            (published ++ [move_base self
              ((compute_force_field m self u.obstacle_cloud_bf).x * self.velocity_scale_)
              ((compute_force_field m self u.obstacle_cloud_bf).y * self.velocity_scale_)])
            ts := by
      intro ts
      simp only [move_base_away_loop]
      rw [if_neg hnz, if_neg (by simp [hosc]), if_neg hu]
    have hih := ih _ _ (published ++ [move_base self
        ((compute_force_field m self u.obstacle_cloud_bf).x * self.velocity_scale_)
        ((compute_force_field m self u.obstacle_cloud_bf).y * self.velocity_scale_)])
      hpass2
      (by
        intro v hv
        rw [detect_oscillations_timeout]
        exact hearly v (List.mem_cons_of_mem _ hv))
      (by rw [detect_oscillations_timeout]; exact hlate)
    obtain ⟨⟨r, hr, hrt, hrn, hrl⟩, hnone⟩ := hih
    refine ⟨⟨r, ?_, hrt, hrn, ?_⟩, ?_⟩
    · rw [List.cons_append, hstep]; exact hr
    · rw [hrl]; simp only [List.length_append, List.length_cons, List.length_nil]; ring
    · rw [hstep]; exact hnone

/-- C10: in an invocation whose passes all have a nonzero force and a detector that
does not report, `move_base_away` returns as timed out on the first pass whose elapsed
time since `start_time` is strictly greater than `timeout_`: the passes before it, whose
elapsed time is at most `timeout_` (equality included), do not end the loop, and exactly
one command per pass plus the final stop command is published. -/
theorem timed_out_on_first_late_pass (m : CMath α) (self : ForceFieldRecovery α)
    (start_time : α) (pre : List (Tick α)) (t : Tick α) (rest : List (Tick α))
    (hpass : passes_without_zero_or_oscillation m
      { self with allowed_oscillations_ := 0 } 0 (pre ++ [t]))
    (hearly : ∀ u ∈ pre, ¬ (u.now - start_time > self.timeout_))
    (hlate : t.now - start_time > self.timeout_) :
    (∃ r, move_base_away m self start_time (pre ++ t :: rest) = some r
      ∧ r.timeout = true ∧ r.outcome = Outcome.TIMED_OUT
      ∧ r.published.length = pre.length + 2)
    ∧ move_base_away m self start_time pre = none := by
  obtain ⟨⟨r, hr, hrt, hrn, hrl⟩, hnone⟩ :=
    move_base_away_loop_timed_out m start_time t rest pre
      { self with allowed_oscillations_ := 0 } 0 [] hpass hearly hlate
  constructor
  · refine ⟨{ r with published := r.published ++ [move_base r.self 0.0 0.0] }, ?_, hrt, ?_, ?_⟩
    · simp only [move_base_away, hr]
    · simp [RunResult.outcome, hrt, hrn]
    · simp [hrl]
  · simp only [move_base_away, hnone]

/-- Over the reals, passes that all see the cloud of Scenario B take neither of the
first two exits: the force is `(-1, 0)` on each and the angle never changes. -/
theorem passes_constant_force (ticks : List (Tick ℝ))
    (hticks : ∀ u ∈ ticks, u.obstacle_cloud_bf = cloud_scenario_B) :
    ∀ s : ForceFieldRecovery ℝ, s.obstacle_neighborhood_ = 0.6 →
      s.allowed_oscillations_ = 0 → s.oscillation_angular_tolerance_ = 2.8 →
      (s.detect_oscillation_is_enabled_ = false ∨ s.previous_angle_ = Real.pi) →
      passes_without_zero_or_oscillation
        (⟨Real.sqrt, fun y x => Complex.arg ⟨x, y⟩, Real.sin, Real.cos⟩ : CMath ℝ)
        s 0 ticks := by
  induction ticks with
  | nil => intro s _ _ _ _; trivial
  | cons t ts ih =>
    intro s hrad hallowed htol hstate
    have hcloud : t.obstacle_cloud_bf = cloud_scenario_B := hticks t (List.mem_cons_self _ _)
    have hforce := force_scenario_B s hrad
    simp only [passes_without_zero_or_oscillation, hcloud, hforce]
    by_cases hen : s.detect_oscillation_is_enabled_ = true
    · have hprev : s.previous_angle_ = Real.pi := by
        rcases hstate with h | h
        · rw [hen] at h; exact absurd h (by simp)
        · exact h
      have hd : detect_oscillations
          (⟨Real.sqrt, fun y x => Complex.arg ⟨x, y⟩, Real.sin, Real.cos⟩ : CMath ℝ)
          s ⟨-1, 0, 0⟩ 0 = ⟨false, { s with previous_angle_ := Real.pi }, 0⟩ := by
        norm_num [detect_oscillations, hen, hprev, htol, hallowed, arg_mk_neg_one,
          arg_mk_one]
      rw [hd]
      refine ⟨by norm_num, rfl, ?_⟩
      exact ih (fun u hu => hticks u (List.mem_cons_of_mem _ hu)) _ hrad hallowed htol
        (Or.inr rfl)
    · have hd : detect_oscillations
          (⟨Real.sqrt, fun y x => Complex.arg ⟨x, y⟩, Real.sin, Real.cos⟩ : CMath ℝ)
          s ⟨-1, 0, 0⟩ 0
          = ⟨false, { s with previous_angle_ := Real.pi
                             detect_oscillation_is_enabled_ := true }, 0⟩ := by
        norm_num [detect_oscillations, hen, hallowed, arg_mk_neg_one]
      rw [hd]
      refine ⟨by norm_num, rfl, ?_⟩
      exact ih (fun u hu => hticks u (List.mem_cons_of_mem _ hu)) _ hrad hallowed htol
        (Or.inr rfl)

/-- C10 (witness, Scenario D): over the reals, the default object (timeout 3.0 s), an
invocation started at time 0 whose passes are 0.2 s apart and all see the obstacle of
Scenario B.  The sixteen passes at 0, 0.2, ..., 3.0 s do not end the loop; the
seventeenth, at 3.2 s, ends it as timed out. -/
theorem timed_out_on_first_late_pass_witness :
    passes_without_zero_or_oscillation
      (⟨Real.sqrt, fun y x => Complex.arg ⟨x, y⟩, Real.sin, Real.cos⟩ : CMath ℝ)
      { (defaultObject : ForceFieldRecovery ℝ) with allowed_oscillations_ := 0 } 0
      (ticks_scenario_D 0 16 ++ [⟨cloud_scenario_B, 3.2⟩])
    ∧ (∀ u ∈ (ticks_scenario_D 0 16 : List (Tick ℝ)),
        ¬ (u.now - 0 > (defaultObject : ForceFieldRecovery ℝ).timeout_))
    ∧ (3.2 : ℝ) - 0 > (defaultObject : ForceFieldRecovery ℝ).timeout_
    ∧ (∃ r, move_base_away
          (⟨Real.sqrt, fun y x => Complex.arg ⟨x, y⟩, Real.sin, Real.cos⟩ : CMath ℝ)
          defaultObject 0
          (ticks_scenario_D 0 16 ++ ⟨cloud_scenario_B, 3.2⟩ :: ticks_scenario_D 17 3) = some r
        ∧ r.timeout = true ∧ r.outcome = Outcome.TIMED_OUT ∧ r.published.length = 16 + 2)
    ∧ move_base_away
        (⟨Real.sqrt, fun y x => Complex.arg ⟨x, y⟩, Real.sin, Real.cos⟩ : CMath ℝ)
        defaultObject 0 (ticks_scenario_D 0 16) = none := by
  have htimeout : (defaultObject : ForceFieldRecovery ℝ).timeout_ = 3 := by
    norm_num [defaultObject, initialise, constructed, noParams, param]
  have hpass : passes_without_zero_or_oscillation
      (⟨Real.sqrt, fun y x => Complex.arg ⟨x, y⟩, Real.sin, Real.cos⟩ : CMath ℝ)
      { (defaultObject : ForceFieldRecovery ℝ) with allowed_oscillations_ := 0 } 0
      (ticks_scenario_D 0 16 ++ [⟨cloud_scenario_B, 3.2⟩]) := by
    apply passes_constant_force
    · intro u hu
      rw [List.mem_append] at hu
      rcases hu with hu | hu
      · simp only [ticks_scenario_D, List.mem_map] at hu
        obtain ⟨k, _, rfl⟩ := hu
        rfl
      · rw [List.mem_singleton] at hu
        rw [hu]
    · exact defaultObject_obstacle_neighborhood
    · rfl
    · norm_num [defaultObject, initialise, constructed, noParams, param]
    · left
      simp [defaultObject, initialise, constructed, noParams, param]
  have hearly : ∀ u ∈ (ticks_scenario_D 0 16 : List (Tick ℝ)),
      ¬ (u.now - 0 > (defaultObject : ForceFieldRecovery ℝ).timeout_) := by
    intro u hu
    simp only [ticks_scenario_D, List.mem_map, List.mem_range] at hu
    obtain ⟨k, hk, rfl⟩ := hu
    rw [htimeout]
    have hk2 : (k : ℝ) ≤ 15 := by
      have : k ≤ 15 := by omega
      exact_mod_cast this
    simp only [sub_zero, gt_iff_lt, not_lt, zero_add]
    norm_num
    linarith
  have hlate : (3.2 : ℝ) - 0 > (defaultObject : ForceFieldRecovery ℝ).timeout_ := by
    rw [htimeout]; norm_num
  have h := timed_out_on_first_late_pass _ defaultObject 0 (ticks_scenario_D 0 16)
    ⟨cloud_scenario_B, 3.2⟩ (ticks_scenario_D 17 3) hpass hearly hlate
  exact ⟨hpass, hearly, hlate, h.1, h.2⟩

end Loop

section Costmap

variable {α : Type} [LinearOrderedField α]

/-- The inner loop appends the centroids of the lethal cells of column `i`, in order. -/
theorem foldl_costmap_to_pointcloud_cell (L : Int) (costmap : Costmap2D α) (i : Nat)
    (js : List Nat) (cloud : List (PointXYZ α)) :
    js.foldl (costmap_to_pointcloud_cell L costmap i) cloud
      = cloud ++ (((js.filter fun j => decide (costmap.getCost i j = L)).map
          fun j => (i, j)).map (cell_centroid costmap)) := by
  induction js generalizing cloud with
  | nil => simp
  | cons j js ih =>
    rw [List.foldl_cons, ih]
    by_cases h : costmap.getCost i j = L
    · simp [costmap_to_pointcloud_cell, h, cell_centroid]
    · simp [costmap_to_pointcloud_cell, h]

/-- The outer loop appends, column after column, the centroids of the lethal cells. -/
theorem foldl_costmap_to_pointcloud_column (L : Int) (costmap : Costmap2D α) (js : List Nat)
    (is : List Nat) (cloud : List (PointXYZ α)) :
    is.foldl (fun cloud i => js.foldl (costmap_to_pointcloud_cell L costmap i) cloud) cloud
      = cloud ++ ((is.flatMap fun i =>
          ((js.filter fun j => decide (costmap.getCost i j = L)).map fun j => (i, j))).map
            (cell_centroid costmap)) := by
  induction is generalizing cloud with
  | nil => simp
  | cons i is ih =>
    rw [List.foldl_cons, ih, foldl_costmap_to_pointcloud_cell]
    simp [List.flatMap_cons, List.append_assoc]

/-- The list of lethal cells has no repetition. -/
theorem lethal_cells_nodup {β : Type} (L : Int) (costmap : Costmap2D β) :
    (lethal_cells L costmap).Nodup := by
  unfold lethal_cells
  rw [List.nodup_flatMap]
  constructor
  · intro i _
    refine List.Nodup.map ?_ ((List.nodup_range _).filter _)
    intro a b hab
    exact (Prod.mk.inj hab).2
  · refine (List.nodup_range _).pairwise_of_forall_ne ?_
    intro a _ b _ hab
    intro c hca hcb
    simp only [List.mem_map] at hca hcb
    obtain ⟨_, _, rfl⟩ := hca
    obtain ⟨_, _, h⟩ := hcb
    exact hab (Prod.mk.inj h).1.symm

/-- Membership in the list of lethal cells. -/
theorem mem_lethal_cells {β : Type} (L : Int) (costmap : Costmap2D β) (i j : Nat) :
    (i, j) ∈ lethal_cells L costmap
      ↔ (i : Int) < costmap.getSizeInCellsX ∧ (j : Int) < costmap.getSizeInCellsY
        ∧ costmap.getCost i j = L := by
  simp only [lethal_cells, List.mem_flatMap, List.mem_map, List.mem_filter, List.mem_range,
    decide_eq_true_eq, Prod.mk.injEq, Int.lt_toNat]
  constructor
  · rintro ⟨a, ha, b, ⟨hb, hc⟩, rfl, rfl⟩
    exact ⟨ha, hb, hc⟩
  · rintro ⟨ha, hb, hc⟩
    exact ⟨i, ha, j, ⟨hb, hc⟩, rfl, rfl⟩

/-- C11: for a costmap of `X` by `Y` cells, `costmap_to_pointcloud` returns the cloud
with one point per cell `(i, j)`, `i < X`, `j < Y`, whose cost equals `LETHAL_COST`, that
point being `(mapToWorld(i, j).x, mapToWorld(i, j).y, 0)`, and no other point: the cloud
is the list of lethal cells, which has no repetition, mapped to their centroids.  When
`X` or `Y` is 0 the cloud is empty. -/
theorem costmap_to_pointcloud_lethal_cells (LETHAL_COST : Int) (costmap : Costmap2D α) :
    costmap_to_pointcloud LETHAL_COST costmap
      = (lethal_cells LETHAL_COST costmap).map (cell_centroid costmap)
    ∧ (lethal_cells LETHAL_COST costmap).Nodup
    ∧ (∀ i j : Nat, (i, j) ∈ lethal_cells LETHAL_COST costmap
        ↔ (i : Int) < costmap.getSizeInCellsX ∧ (j : Int) < costmap.getSizeInCellsY
          ∧ costmap.getCost i j = LETHAL_COST)
    ∧ (costmap_to_pointcloud LETHAL_COST costmap).length
        = (lethal_cells LETHAL_COST costmap).length
    ∧ ((costmap.getSizeInCellsX = 0 ∨ costmap.getSizeInCellsY = 0)
        → costmap_to_pointcloud LETHAL_COST costmap = []) := by
  have heq : costmap_to_pointcloud LETHAL_COST costmap
      = (lethal_cells LETHAL_COST costmap).map (cell_centroid costmap) := by
    unfold costmap_to_pointcloud lethal_cells
    simp only [foldl_costmap_to_pointcloud_column, List.nil_append]
  refine ⟨heq, lethal_cells_nodup _ _, mem_lethal_cells _ _, by rw [heq, List.length_map], ?_⟩
  intro h
  rw [heq]
  rcases h with h | h
  · simp [lethal_cells, h]
  · simp [lethal_cells, h]

/-- C11 (witness): a costmap of 2 by 2 cells with the lethal cells `(0, 1)` and `(1, 0)`
gives the cloud of their two centroids; a costmap of 0 by 3 cells gives the empty cloud. -/
theorem costmap_to_pointcloud_lethal_cells_witness :
    costmap_to_pointcloud 254 (grid_two_by_two : Costmap2D ℚ) = [⟨0, 1, 0⟩, ⟨1, 0, 0⟩]
    ∧ ((grid_empty : Costmap2D ℚ).getSizeInCellsX = 0
        ∨ (grid_empty : Costmap2D ℚ).getSizeInCellsY = 0)
    ∧ costmap_to_pointcloud 254 (grid_empty : Costmap2D ℚ) = [] := by
  refine ⟨?_, Or.inl rfl,
    (costmap_to_pointcloud_lethal_cells 254 grid_empty).2.2.2.2 (Or.inl rfl)⟩
  rw [(costmap_to_pointcloud_lethal_cells 254 grid_two_by_two).1]
  simp [lethal_cells, grid_two_by_two, cell_centroid, List.range_succ, List.flatMap]

end Costmap

section Guards

variable {α : Type} [LinearOrderedField α]

/-- C12: `runBehavior` on an object that is not initialised, or whose global or local
costmap is `NULL`, returns at once: it publishes no velocity command, does not enter the
loop (the result does not depend on what the passes would read) and leaves every member
as it was; `initialize` on an object that is already initialised leaves every member as
it was. -/
theorem usage_errors_abort_without_effect (m : CMath α) (self : ForceFieldRecovery α)
    (start_time : α) (ticks : List (Tick α)) (tf global_costmap local_costmap : Option Nat)
    (private_nh : ParamServer α) :
    ((self.initialized_ = false ∨ self.global_costmap_ = none ∨ self.local_costmap_ = none)
      → runBehavior m self start_time ticks = some (self, []))
    ∧ (self.initialized_ = true
      → initialise self tf global_costmap local_costmap private_nh = self) := by
  constructor
  · intro h
    unfold runBehavior
    by_cases hi : self.initialized_ = true
    · have hc : self.global_costmap_ = none ∨ self.local_costmap_ = none := by
        rcases h with h | h | h
        · rw [hi] at h; exact absurd h (by simp)
        · exact Or.inl h
        · exact Or.inr h
      simp [hi, hc]
    · simp [hi]
  · intro h
    simp [initialise, h]

/-- C12 (witness): over the reals, `runBehavior` on the object as constructed and on an
object initialised with a `NULL` local costmap publishes nothing and returns the object
unchanged, whatever the passes would read; a second `initialize` of the default object
with other pointers and `max_velocity = -1` leaves it unchanged. -/
theorem usage_errors_abort_without_effect_witness :
    runBehavior (⟨Real.sqrt, fun y x => Complex.arg ⟨x, y⟩, Real.sin, Real.cos⟩ : CMath ℝ)
        constructed 0 [⟨cloud_scenario_B, 0⟩] = some (constructed, [])
    ∧ runBehavior (⟨Real.sqrt, fun y x => Complex.arg ⟨x, y⟩, Real.sin, Real.cos⟩ : CMath ℝ)
        (initialise constructed (some 1) (some 2) none noParams) 0 [⟨cloud_scenario_B, 0⟩]
        = some (initialise constructed (some 1) (some 2) none noParams, [])
    ∧ initialise (defaultObject : ForceFieldRecovery ℝ) (some 7) (some 8) (some 9)
        { (noParams : ParamServer ℝ) with max_velocity := some (-1) } = defaultObject :=
  ⟨(usage_errors_abort_without_effect _ constructed 0 _ none none none noParams).1
      (Or.inl rfl),
   (usage_errors_abort_without_effect _ (initialise constructed (some 1) (some 2) none noParams)
      0 _ none none none noParams).1
      (Or.inr (Or.inr (by simp [initialise, constructed]))),
   (usage_errors_abort_without_effect
      (⟨Real.sqrt, fun y x => Complex.arg ⟨x, y⟩, Real.sin, Real.cos⟩ : CMath ℝ)
      defaultObject 0 [] (some 7) (some 8) (some 9) _).2
      (by simp [defaultObject, initialise, constructed])⟩

end Guards

section Detector

variable {α : Type} [LinearOrderedField α]

/-- The call `detect_oscillations` leaves `detect_oscillation_is_enabled_` set. -/
theorem detect_oscillations_enabled (m : CMath α) (self : ForceFieldRecovery α)
    (f : Vector3 α) (n : Int) :
    (detect_oscillations m self f n).self.detect_oscillation_is_enabled_ = true := by
  unfold detect_oscillations
  by_cases h : self.detect_oscillation_is_enabled_ = true
  · simp [h]
  · simp [h]

/-- The loop never clears `detect_oscillation_is_enabled_`. -/
theorem move_base_away_loop_enabled (m : CMath α) (start_time : α) (ticks : List (Tick α)) :
    ∀ (self : ForceFieldRecovery α) (n : Int) (published : List (Twist α))
      (r : RunResult α),
      self.detect_oscillation_is_enabled_ = true →
      move_base_away_loop m start_time self n published ticks = some r →
      r.self.detect_oscillation_is_enabled_ = true := by
  induction ticks with
  | nil =>
    intro self n published r _ h
    simp [move_base_away_loop] at h
  | cons t ts ih =>
    intro self n published r hflag h
    simp only [move_base_away_loop] at h
    split_ifs at h with h1 h2 h3
    · cases h; exact hflag
    · cases h; exact detect_oscillations_enabled m self _ n
    · cases h; exact detect_oscillations_enabled m self _ n
    · exact ih _ _ _ _ (detect_oscillations_enabled m self _ n) h

/-- C15: a pass whose force has `x = 0` and `y = 0` ends the loop as succeeded, from any
loop state and whatever the clock reads (the elapsed time may exceed `timeout_`):
`detect_oscillations` is not called, so the object (with `previous_angle_` and
`detect_oscillation_is_enabled_`) and `number_of_oscillations` are as before the pass,
and the only message of the pass is the command for the zero force. -/
theorem zero_force_pass_succeeds (m : CMath α) (start_time : α)
    (self : ForceFieldRecovery α) (n : Int) (published : List (Twist α)) (t : Tick α)
    (rest : List (Tick α))
    (h : (compute_force_field m self t.obstacle_cloud_bf).x = 0
      ∧ (compute_force_field m self t.obstacle_cloud_bf).y = 0) :
    ∃ r, move_base_away_loop m start_time self n published (t :: rest) = some r
      ∧ r.outcome = Outcome.SUCCEEDED
      ∧ r.no_obstacles_in_radius = true
      ∧ r.timeout = false
      ∧ r.self = self
      ∧ r.self.previous_angle_ = self.previous_angle_
      ∧ r.self.detect_oscillation_is_enabled_ = self.detect_oscillation_is_enabled_
      ∧ r.number_of_oscillations = n
      ∧ r.published = published ++ [move_base self (0 * self.velocity_scale_)
          (0 * self.velocity_scale_)] := by
  refine ⟨_, move_base_away_loop_zero_force m start_time self n published t rest h,
    rfl, rfl, rfl, rfl, rfl, rfl, rfl, ?_⟩
  simp only [h.1, h.2]

/-- C15 (witness): over the reals, the default object with the detector state of an
earlier pass (flag set, angle `π`), a counter at 0 and a pass that sees an empty cloud
100 s after the start, far beyond the timeout of 3 s. -/
theorem zero_force_pass_succeeds_witness :
    (100 : ℝ) - 0 > (defaultObjectAfter Real.pi : ForceFieldRecovery ℝ).timeout_
    ∧ ∃ r, move_base_away_loop
        (⟨Real.sqrt, fun y x => Complex.arg ⟨x, y⟩, Real.sin, Real.cos⟩ : CMath ℝ)
        0 (defaultObjectAfter Real.pi) 0 [] (⟨[], 100⟩ :: [⟨cloud_scenario_B, 100.2⟩]) = some r
      ∧ r.outcome = Outcome.SUCCEEDED
      ∧ r.self.previous_angle_ = Real.pi
      ∧ r.self.detect_oscillation_is_enabled_ = true
      ∧ r.number_of_oscillations = 0 := by
  obtain ⟨r, hr, ho, _, _, hs, _, _, hn, _⟩ := zero_force_pass_succeeds
    (⟨Real.sqrt, fun y x => Complex.arg ⟨x, y⟩, Real.sin, Real.cos⟩ : CMath ℝ)
    0 (defaultObjectAfter Real.pi) 0 [] ⟨[], 100⟩ [⟨cloud_scenario_B, 100.2⟩]
    (by rw [force_nil]; exact ⟨rfl, rfl⟩)
  refine ⟨?_, r, hr, ho, ?_, ?_, hn⟩
  · norm_num [defaultObjectAfter, defaultObject, initialise, constructed, noParams, param]
  · rw [hs]; rfl
  · rw [hs]; rfl

/-- C16: after a call of `detect_oscillations` with the force `f`, in either branch and
whether or not an oscillation was counted, `previous_angle_` is `atan2(f.y, f.x)` and
`detect_oscillation_is_enabled_` is set; once the flag is set, neither the loop nor a
whole invocation of `move_base_away` clears it. -/
theorem detect_oscillations_records_angle (m : CMath α) (self : ForceFieldRecovery α)
    (f : Vector3 α) (n : Int) :
    (detect_oscillations m self f n).self.previous_angle_ = m.atan2 f.y f.x
    ∧ (detect_oscillations m self f n).self.detect_oscillation_is_enabled_ = true
    ∧ (∀ (start_time : α) (published : List (Twist α)) (ticks : List (Tick α))
        (r : RunResult α), self.detect_oscillation_is_enabled_ = true →
        move_base_away_loop m start_time self n published ticks = some r →
        r.self.detect_oscillation_is_enabled_ = true)
    ∧ (∀ (start_time : α) (ticks : List (Tick α)) (r : RunResult α),
        self.detect_oscillation_is_enabled_ = true →
        move_base_away m self start_time ticks = some r →
        r.self.detect_oscillation_is_enabled_ = true) := by
  refine ⟨?_, detect_oscillations_enabled m self f n, ?_, ?_⟩
  · unfold detect_oscillations
    by_cases h : self.detect_oscillation_is_enabled_ = true
    · simp [h]
    · simp [h]
  · intro start_time published ticks r hflag hrun
    exact move_base_away_loop_enabled m start_time ticks self n published r hflag hrun
  · intro start_time ticks r hflag hrun
    unfold move_base_away at hrun
    cases hloop : move_base_away_loop m start_time
        { self with allowed_oscillations_ := 0 } 0 [] ticks with
    | none =>
      simp only [hloop] at hrun
      exact absurd hrun (by simp)
    | some r0 =>
      simp only [hloop] at hrun
      have hr : r = { r0 with published := r0.published ++ [move_base r0.self 0.0 0.0] } := by
        simpa using hrun.symm
      rw [hr]
      exact move_base_away_loop_enabled m start_time ticks
        { self with allowed_oscillations_ := 0 } 0 [] r0 hflag hloop

/-- C16 (witness): over the reals, a call in the steady branch with the force `(0, 1)` on
the default object that holds the angle `π` records the angle of `(0, 1)`, and an
invocation on that object, which stops on its first pass, returns with the flag set. -/
theorem detect_oscillations_records_angle_witness :
    (detect_oscillations
        (⟨Real.sqrt, fun y x => Complex.arg ⟨x, y⟩, Real.sin, Real.cos⟩ : CMath ℝ)
        (defaultObjectAfter Real.pi) ⟨0, 1, 0⟩ 0).self.previous_angle_
      = Complex.arg ⟨0, 1⟩
    ∧ (defaultObjectAfter Real.pi : ForceFieldRecovery ℝ).detect_oscillation_is_enabled_ = true
    ∧ ∃ r, move_base_away
        (⟨Real.sqrt, fun y x => Complex.arg ⟨x, y⟩, Real.sin, Real.cos⟩ : CMath ℝ)
        (defaultObjectAfter Real.pi) 0 [⟨cloud_behind, 0⟩, ⟨[], 0.2⟩] = some r
      ∧ r.self.detect_oscillation_is_enabled_ = true := by
  obtain ⟨r, hr, _, _⟩ := later_run_oscillates
  exact ⟨(detect_oscillations_records_angle _ (defaultObjectAfter Real.pi) ⟨0, 1, 0⟩ 0).1,
    rfl, r, hr,
    (detect_oscillations_records_angle
      (⟨Real.sqrt, fun y x => Complex.arg ⟨x, y⟩, Real.sin, Real.cos⟩ : CMath ℝ)
      (defaultObjectAfter Real.pi) ⟨0, 1, 0⟩ 0).2.2.2 0 _ r rfl hr⟩

end Detector

section FrameChangeFailure

variable {α : Type} [LinearOrderedField α]

/-- The messages of the loop are added after those published before it. -/
theorem move_base_away_loop_published_prefix (m : CMath α) (start_time : α)
    (ticks : List (Tick α)) :
    ∀ (self : ForceFieldRecovery α) (n : Int) (published : List (Twist α))
      (r : RunResult α),
      move_base_away_loop m start_time self n published ticks = some r →
      published <+: r.published := by
  induction ticks with
  | nil =>
    intro self n published r h
    simp [move_base_away_loop] at h
  | cons t ts ih =>
    intro self n published r h
    simp only [move_base_away_loop] at h
    split_ifs at h with h1 h2 h3
    · cases h; exact List.prefix_append _ _
    · cases h; exact List.prefix_append _ _
    · cases h; exact List.prefix_append _ _
    · exact (List.prefix_append _ _).trans (ih _ _ _ _ h)

/-- A pass publishes the command for the force of its cloud before anything else. -/
theorem move_base_away_loop_publishes_command (m : CMath α) (start_time : α)
    (self : ForceFieldRecovery α) (n : Int) (published : List (Twist α)) (t : Tick α)
    (ts : List (Tick α)) (r : RunResult α)
    (h : move_base_away_loop m start_time self n published (t :: ts) = some r) :
    (published ++ [move_base self
        ((compute_force_field m self t.obstacle_cloud_bf).x * self.velocity_scale_)
        ((compute_force_field m self t.obstacle_cloud_bf).y * self.velocity_scale_)])
      <+: r.published := by
  simp only [move_base_away_loop] at h
  split_ifs at h with h1 h2 h3
  · cases h; exact List.prefix_refl _
  · cases h; exact List.prefix_refl _
  · cases h; exact List.prefix_refl _
  · exact move_base_away_loop_published_prefix m start_time ts _ _ _ _ h

/-- The pass of `snapshot_lookup_fails` goes on with the cloud of Scenario B. -/
theorem toTick_snapshot_lookup_fails :
    (snapshot_lookup_fails : Snapshot α).toTick 254 = ⟨cloud_scenario_B, 0⟩ := by
  simp [Snapshot.toTick, Snapshot.frame_change, change_cloud_reference_frame,
    snapshot_lookup_fails, publish_cloud, costmap_to_pointcloud, costmap_to_pointcloud_cell,
    grid_one_cell, transformPointCloud, StampedTransform.apply, identity_transform,
    cloud_scenario_B, List.range_succ]

/-- Over the reals, the default object on a pass that sees the cloud of Scenario B and a
pass that sees an empty cloud: the first command is `(-0.3, 0)`. -/
theorem scenario_B_run_published : ∃ r, move_base_away
      (⟨Real.sqrt, fun y x => Complex.arg ⟨x, y⟩, Real.sin, Real.cos⟩ : CMath ℝ)
      defaultObject 0 [⟨cloud_scenario_B, 0⟩, ⟨[], 0.2⟩] = some r
    ∧ r.published.head? = some ⟨⟨-0.3, 0, 0⟩, ⟨0, 0, 0⟩⟩
    ∧ r.published.length = 3 := by
  cases hrun : move_base_away
      (⟨Real.sqrt, fun y x => Complex.arg ⟨x, y⟩, Real.sin, Real.cos⟩ : CMath ℝ)
      defaultObject 0 [⟨cloud_scenario_B, 0⟩, ⟨[], 0.2⟩] with
  | none =>
    norm_num [move_base_away, move_base_away_loop, force_scenario_B, force_nil,
      detect_oscillations, defaultObject, initialise, constructed, noParams, param,
      arg_mk_neg_one] at hrun
    exact absurd hrun (Option.some_ne_none _)
  | some r =>
    norm_num [move_base_away, move_base_away_loop, force_scenario_B, force_nil,
      detect_oscillations, defaultObject, initialise, constructed, noParams, param,
      arg_mk_neg_one] at hrun
    subst hrun
    refine ⟨_, rfl, ?_, rfl⟩
    norm_num [move_base]

/-- C13 (counterexample): over the reals, on a pass whose lookup of the transform from
`/map` to `/base_footprint` fails, `change_cloud_reference_frame` reports the error and
yet returns a cloud, the point `(0.1, 0, 0)`; the pass computes the force from it and
publishes the command `(-0.3, 0)`. -/
theorem failed_lookup_still_publishes :
    (snapshot_lookup_fails : Snapshot ℝ).tf.lookupTransform "/base_footprint" "/map" = none
    ∧ ((snapshot_lookup_fails : Snapshot ℝ).frame_change 254).error_reported = true
    ∧ ((snapshot_lookup_fails : Snapshot ℝ).frame_change 254).cloud_trans = [⟨0.1, 0, 0⟩]
    ∧ ∃ r, move_base_away
        (⟨Real.sqrt, fun y x => Complex.arg ⟨x, y⟩, Real.sin, Real.cos⟩ : CMath ℝ)
        defaultObject 0 [(snapshot_lookup_fails : Snapshot ℝ).toTick 254, ⟨[], 0.2⟩] = some r
      ∧ r.published.head? = some ⟨⟨-0.3, 0, 0⟩, ⟨0, 0, 0⟩⟩
      ∧ r.published.length = 3 := by
  refine ⟨rfl, ?_, ?_, ?_⟩
  · simp [Snapshot.frame_change, change_cloud_reference_frame, snapshot_lookup_fails,
      publish_cloud]
  · have h := congrArg Tick.obstacle_cloud_bf
      (toTick_snapshot_lookup_fails : (snapshot_lookup_fails : Snapshot ℝ).toTick 254 = _)
    simpa [Snapshot.toTick, cloud_scenario_B] using h
  · rw [toTick_snapshot_lookup_fails]
    exact scenario_B_run_published

/-- C13 (amended): when the lookup of the transform from the frame of the cloud to the
target frame fails, `change_cloud_reference_frame` reports the error and returns the
cloud whose points are the points of the input under the local `transform` as it was
before the lookup, as many as the input has; on a pass of the loop whose lookup from
`/map` to `/base_footprint` fails, the force is computed from that cloud and the command
for it is published. -/
theorem failed_lookup_goes_on_with_unassigned_transform (m : CMath α) (LETHAL_COST : Int)
    (s : Snapshot α) (ros_cloud : PointCloud2 α) (target_reference_frame : String)
    (start_time : α) (self : ForceFieldRecovery α) (n : Int) (published : List (Twist α))
    (rest : List (Tick α)) (r : RunResult α)
    (hfail : s.tf.lookupTransform target_reference_frame ros_cloud.frame_id = none)
    (hpass : s.tf.lookupTransform "/base_footprint" "/map" = none)
    (hrun : move_base_away_loop m start_time self n published
      (s.toTick LETHAL_COST :: rest) = some r) :
    change_cloud_reference_frame s.tf s.transform ros_cloud target_reference_frame
      = ⟨ros_cloud.points.map s.transform.apply, true⟩
    ∧ (change_cloud_reference_frame s.tf s.transform ros_cloud
        target_reference_frame).cloud_trans.length = ros_cloud.points.length
    ∧ (s.toTick LETHAL_COST).obstacle_cloud_bf
      = (costmap_to_pointcloud LETHAL_COST s.costmap).map s.transform.apply
    ∧ (published ++ [move_base self
        ((compute_force_field m self
          ((costmap_to_pointcloud LETHAL_COST s.costmap).map s.transform.apply)).x
          * self.velocity_scale_)
        ((compute_force_field m self
          ((costmap_to_pointcloud LETHAL_COST s.costmap).map s.transform.apply)).y
          * self.velocity_scale_)])
      <+: r.published := by
  have h1 : change_cloud_reference_frame s.tf s.transform ros_cloud target_reference_frame
      = ⟨ros_cloud.points.map s.transform.apply, true⟩ := by
    simp [change_cloud_reference_frame, hfail, transformPointCloud]
  have h2 : (s.toTick LETHAL_COST).obstacle_cloud_bf
      = (costmap_to_pointcloud LETHAL_COST s.costmap).map s.transform.apply := by
    simp [Snapshot.toTick, Snapshot.frame_change, change_cloud_reference_frame, publish_cloud,
      hpass, transformPointCloud]
  refine ⟨h1, by rw [h1]; simp, h2, ?_⟩
  have h3 := move_base_away_loop_publishes_command m start_time self n published _ rest r hrun
  rw [h2] at h3
  exact h3

/-- Over the reals, the loop on the default object with a pass that sees the cloud of
Scenario B and a pass that sees an empty cloud returns. -/
theorem scenario_B_loop_returns : ∃ r, move_base_away_loop
      (⟨Real.sqrt, fun y x => Complex.arg ⟨x, y⟩, Real.sin, Real.cos⟩ : CMath ℝ)
      0 defaultObject 0 [] [⟨cloud_scenario_B, 0⟩, ⟨[], 0.2⟩] = some r := by
  cases hrun : move_base_away_loop
      (⟨Real.sqrt, fun y x => Complex.arg ⟨x, y⟩, Real.sin, Real.cos⟩ : CMath ℝ)
      0 defaultObject 0 [] [⟨cloud_scenario_B, 0⟩, ⟨[], 0.2⟩] with
  | none =>
    norm_num [move_base_away_loop, force_scenario_B, force_nil,
      detect_oscillations, defaultObject, initialise, constructed, noParams, param,
      arg_mk_neg_one] at hrun
    exact absurd hrun (Option.some_ne_none _)
  | some r => exact ⟨r, rfl⟩

/-- C13 (witness): over the reals, the default object and the pass of
`snapshot_lookup_fails`, followed by a pass that sees an empty cloud. -/
theorem failed_lookup_goes_on_with_unassigned_transform_witness :
    (snapshot_lookup_fails : Snapshot ℝ).tf.lookupTransform "/base_footprint"
        (publish_cloud cloud_scenario_B "/map" : PointCloud2 ℝ).frame_id = none
    ∧ (snapshot_lookup_fails : Snapshot ℝ).tf.lookupTransform "/base_footprint" "/map" = none
    ∧ ∃ r, move_base_away_loop
        (⟨Real.sqrt, fun y x => Complex.arg ⟨x, y⟩, Real.sin, Real.cos⟩ : CMath ℝ)
        0 defaultObject 0 [] ((snapshot_lookup_fails : Snapshot ℝ).toTick 254 :: [⟨[], 0.2⟩])
        = some r
      ∧ change_cloud_reference_frame (snapshot_lookup_fails : Snapshot ℝ).tf
          (snapshot_lookup_fails : Snapshot ℝ).transform
          (publish_cloud cloud_scenario_B "/map") "/base_footprint"
        = ⟨(publish_cloud cloud_scenario_B "/map" : PointCloud2 ℝ).points.map
            (snapshot_lookup_fails : Snapshot ℝ).transform.apply, true⟩
      ∧ r.published.length ≥ 1 := by
  obtain ⟨r, hr⟩ := scenario_B_loop_returns
  have hr2 : move_base_away_loop
      (⟨Real.sqrt, fun y x => Complex.arg ⟨x, y⟩, Real.sin, Real.cos⟩ : CMath ℝ)
      0 defaultObject 0 [] ((snapshot_lookup_fails : Snapshot ℝ).toTick 254 :: [⟨[], 0.2⟩])
      = some r := by
    rw [toTick_snapshot_lookup_fails]; exact hr
  have h := failed_lookup_goes_on_with_unassigned_transform
    (⟨Real.sqrt, fun y x => Complex.arg ⟨x, y⟩, Real.sin, Real.cos⟩ : CMath ℝ) 254
    snapshot_lookup_fails (publish_cloud cloud_scenario_B "/map") "/base_footprint"
    0 defaultObject 0 [] [⟨[], 0.2⟩] r rfl rfl hr2
  refine ⟨rfl, rfl, r, hr2, h.1, ?_⟩
  have hlen := h.2.2.2.length_le
  simp only [List.nil_append, List.length_singleton] at hlen
  exact hlen

end FrameChangeFailure

section ScenarioC

/-- Over the reals, the wrapped difference between the angles of two opposite nonzero
directions is `π`. -/
theorem wrapped_difference_opposite (x y : ℝ) (h : x ≠ 0 ∨ y ≠ 0) :
    Complex.arg ⟨Real.cos (Complex.arg ⟨-x, -y⟩ - Complex.arg ⟨x, y⟩),
      Real.sin (Complex.arg ⟨-x, -y⟩ - Complex.arg ⟨x, y⟩)⟩ = Real.pi := by
  have hz : (⟨x, y⟩ : ℂ) ≠ 0 := by
    intro h0
    have hx := congrArg Complex.re h0
    have hy := congrArg Complex.im h0
    simp only [Complex.zero_re, Complex.zero_im] at hx hy
    rcases h with h | h
    · exact h hx
    · exact h hy
  have hneg : (⟨-x, -y⟩ : ℂ) = -⟨x, y⟩ := by apply Complex.ext <;> simp
  have hnz : (⟨-x, -y⟩ : ℂ) ≠ 0 := by rw [hneg]; exact neg_ne_zero.mpr hz
  have habs : Complex.abs ⟨-x, -y⟩ = Complex.abs ⟨x, y⟩ := by rw [hneg, map_neg_eq_map]
  have hpos : 0 < Complex.abs ⟨x, y⟩ := Complex.abs.pos hz
  have hsq : Complex.abs ⟨x, y⟩ ^ 2 = x * x + y * y := by
    rw [Complex.sq_abs, Complex.normSq_mk]
  have hcos : Real.cos (Complex.arg ⟨-x, -y⟩ - Complex.arg ⟨x, y⟩) = -1 := by
    rw [Real.cos_sub, Complex.cos_arg hnz, Complex.cos_arg hz, Complex.sin_arg, Complex.sin_arg,
      habs]
    simp only []
    field_simp
    nlinarith [hsq]
  have hsin : Real.sin (Complex.arg ⟨-x, -y⟩ - Complex.arg ⟨x, y⟩) = 0 := by
    rw [Real.sin_sub, Complex.cos_arg hnz, Complex.cos_arg hz, Complex.sin_arg, Complex.sin_arg,
      habs]
    simp only []
    field_simp
    ring
  rw [hcos, hsin]
  exact arg_mk_neg_one

/-- Over the reals, Scenario C on the default object: the forces `(1, 0)`, `(-1, 0)`,
`(1, 0)` on three passes 0.2 s apart end the invocation as oscillating on the second
pass. -/
theorem scenario_C_run : ∃ r, move_base_away
      (⟨Real.sqrt, fun y x => Complex.arg ⟨x, y⟩, Real.sin, Real.cos⟩ : CMath ℝ)
      defaultObject 0 [⟨cloud_behind, 0⟩, ⟨cloud_scenario_B, 0.2⟩, ⟨cloud_behind, 0.4⟩] = some r
    ∧ r.outcome = Outcome.OSCILLATING
    ∧ r.number_of_oscillations = 1
    ∧ r.published.length = 3 := by
  have hpi : (14 / 5 : ℝ) < |Real.pi| := by
    have := tolerance_lt_pi
    norm_num at this
    exact this
  cases hrun : move_base_away
      (⟨Real.sqrt, fun y x => Complex.arg ⟨x, y⟩, Real.sin, Real.cos⟩ : CMath ℝ)
      defaultObject 0 [⟨cloud_behind, 0⟩, ⟨cloud_scenario_B, 0.2⟩, ⟨cloud_behind, 0.4⟩] with
  | none =>
    norm_num [move_base_away, move_base_away_loop, force_scenario_B, force_behind,
      detect_oscillations, defaultObject, initialise, constructed, noParams, param,
      arg_mk_one, arg_mk_neg_one, hpi] at hrun
    exact absurd hrun (Option.some_ne_none _)
  | some r =>
    norm_num [move_base_away, move_base_away_loop, force_scenario_B, force_behind,
      detect_oscillations, defaultObject, initialise, constructed, noParams, param,
      arg_mk_one, arg_mk_neg_one, hpi] at hrun
    subst hrun
    exact ⟨_, rfl, rfl, rfl, rfl⟩

/-- C14: over the reals, when `detect_oscillations` is called with a nonzero force `f`
and then, on the next pass, with the exactly opposite force, and the tolerance is below
`π`, the second call counts an oscillation.  In Scenario C (default tolerance 2.8 and
`allowed_oscillations_` 0, fresh object, force `(1, 0)` then `(-1, 0)`) the first call
returns false, the second returns true, and `move_base_away` stops as oscillating on the
second pass. -/
theorem opposite_forces_counted (s0 : ForceFieldRecovery ℝ) (f : Vector3 ℝ) (n0 : Int)
    (hf : f.x ≠ 0 ∨ f.y ≠ 0) (htol : s0.oscillation_angular_tolerance_ < Real.pi) :
    (detect_oscillations
        (⟨Real.sqrt, fun y x => Complex.arg ⟨x, y⟩, Real.sin, Real.cos⟩ : CMath ℝ)
        (detect_oscillations
          (⟨Real.sqrt, fun y x => Complex.arg ⟨x, y⟩, Real.sin, Real.cos⟩ : CMath ℝ)
          s0 f n0).self
        ⟨-f.x, -f.y, -f.z⟩
        (detect_oscillations
          (⟨Real.sqrt, fun y x => Complex.arg ⟨x, y⟩, Real.sin, Real.cos⟩ : CMath ℝ)
          s0 f n0).number_of_oscillations).number_of_oscillations
      = (detect_oscillations
          (⟨Real.sqrt, fun y x => Complex.arg ⟨x, y⟩, Real.sin, Real.cos⟩ : CMath ℝ)
          s0 f n0).number_of_oscillations + 1
    ∧ (detect_oscillations
        (⟨Real.sqrt, fun y x => Complex.arg ⟨x, y⟩, Real.sin, Real.cos⟩ : CMath ℝ)
        { (defaultObject : ForceFieldRecovery ℝ) with allowed_oscillations_ := 0 }
        ⟨1, 0, 0⟩ 0).result = false
    ∧ (detect_oscillations
        (⟨Real.sqrt, fun y x => Complex.arg ⟨x, y⟩, Real.sin, Real.cos⟩ : CMath ℝ)
        (detect_oscillations
          (⟨Real.sqrt, fun y x => Complex.arg ⟨x, y⟩, Real.sin, Real.cos⟩ : CMath ℝ)
          { (defaultObject : ForceFieldRecovery ℝ) with allowed_oscillations_ := 0 }
          ⟨1, 0, 0⟩ 0).self
        ⟨-1, 0, 0⟩ 0).result = true
    ∧ ∃ r, move_base_away
        (⟨Real.sqrt, fun y x => Complex.arg ⟨x, y⟩, Real.sin, Real.cos⟩ : CMath ℝ)
        defaultObject 0 [⟨cloud_behind, 0⟩, ⟨cloud_scenario_B, 0.2⟩, ⟨cloud_behind, 0.4⟩]
        = some r
      ∧ r.outcome = Outcome.OSCILLATING
      ∧ r.number_of_oscillations = 1
      ∧ r.published.length = 3 := by
  have hpi : (14 / 5 : ℝ) < |Real.pi| := by
    have := tolerance_lt_pi
    norm_num at this
    exact this
  have hw := wrapped_difference_opposite f.x f.y hf
  have htol2 : s0.oscillation_angular_tolerance_ < |Real.pi| := by
    rw [abs_of_pos Real.pi_pos]; exact htol
  refine ⟨?_, ?_, ?_, scenario_C_run⟩
  · by_cases hen : s0.detect_oscillation_is_enabled_ = true
    · simp [detect_oscillations, hen, hw, htol2]
    · simp [detect_oscillations, hen, hw, htol2]
  · norm_num [detect_oscillations, defaultObject, initialise, constructed, noParams, param]
  · norm_num [detect_oscillations, defaultObject, initialise, constructed, noParams, param,
      arg_mk_one, arg_mk_neg_one, hpi]

/-- C14 (witness): the default object (tolerance 2.8), the force `(0, 1)` and then
`(0, -1)`: the second call counts an oscillation. -/
theorem opposite_forces_counted_witness :
    ((0 : ℝ) ≠ 0 ∨ (1 : ℝ) ≠ 0)
    ∧ (defaultObject : ForceFieldRecovery ℝ).oscillation_angular_tolerance_ < Real.pi
    ∧ (detect_oscillations
        (⟨Real.sqrt, fun y x => Complex.arg ⟨x, y⟩, Real.sin, Real.cos⟩ : CMath ℝ)
        (detect_oscillations
          (⟨Real.sqrt, fun y x => Complex.arg ⟨x, y⟩, Real.sin, Real.cos⟩ : CMath ℝ)
          defaultObject ⟨0, 1, 0⟩ 0).self
        ⟨-0, -1, -0⟩
        (detect_oscillations
          (⟨Real.sqrt, fun y x => Complex.arg ⟨x, y⟩, Real.sin, Real.cos⟩ : CMath ℝ)
          defaultObject ⟨0, 1, 0⟩ 0).number_of_oscillations).number_of_oscillations
      = (detect_oscillations
          (⟨Real.sqrt, fun y x => Complex.arg ⟨x, y⟩, Real.sin, Real.cos⟩ : CMath ℝ)
          defaultObject ⟨0, 1, 0⟩ 0).number_of_oscillations + 1 := by
  have hf : (0 : ℝ) ≠ 0 ∨ (1 : ℝ) ≠ 0 := Or.inr one_ne_zero
  have htol : (defaultObject : ForceFieldRecovery ℝ).oscillation_angular_tolerance_
      < Real.pi := by
    have h := Real.pi_gt_three
    norm_num [defaultObject, initialise, constructed, noParams, param]
    linarith
  exact ⟨hf, htol, (opposite_forces_counted defaultObject ⟨0, 1, 0⟩ 0 hf htol).1⟩

end ScenarioC

end ForceField
